import Mathlib

/-!
Verification of the ISI geometry pipeline.

This file gives a shallow embedding, over the real numbers, of the geometry
code of the ISI repository and proves properties of it:

ISI-Core/src/services/geometry_service.py
  (NumpyGeometryProvider, QuaternionTransformationCalculator,
   PrecisionAlignmentCalculator),
ISI-Core/src/interfaces/geometry_interfaces.py
  (Vector3D, LandmarkSet, GeometryParameters, AlignmentResult),
ISI-Integration/src/python/density_landmark_detector.py
  (DensityLandmarkDetector),
ISI-Integration/src/python/geometric_landmark_detector.py
  (GeometricLandmarkDetector, input validation).

Python floats are idealised as real numbers; functions that raise exceptions
are embedded as Option- or Except-valued functions.  External library calls
with documented contracts (np.linalg.eigh, sklearn PCA) are modelled as
explicit arguments constrained by their documented contracts in the theorems.
-/

open scoped Classical

namespace ISI

/-! ## Vector3D and basic operations (geometry_interfaces.Vector3D,
NumpyGeometryProvider) -/

/-- Embedding of the pydantic value object Vector3D (three float fields). -/
@[ext]
structure Vector3D where
  x : ℝ
  y : ℝ
  z : ℝ

/-- Componentwise sum of two vectors. -/
def vadd (a b : Vector3D) : Vector3D := ⟨a.x + b.x, a.y + b.y, a.z + b.z⟩

/-- Componentwise difference of two vectors (used throughout the source as
coordinate-by-coordinate subtraction). -/
def vsub (a b : Vector3D) : Vector3D := ⟨a.x - b.x, a.y - b.y, a.z - b.z⟩

/-- Negation of a vector. -/
def vneg (a : Vector3D) : Vector3D := ⟨-a.x, -a.y, -a.z⟩

/-- Scalar multiple of a vector. -/
def vsmul (c : ℝ) (a : Vector3D) : Vector3D := ⟨c * a.x, c * a.y, c * a.z⟩

/-- Dot product, as in np.dot on length-3 arrays. -/
def dot (a b : Vector3D) : ℝ := a.x * b.x + a.y * b.y + a.z * b.z

/-- Cross product, as in np.cross on length-3 arrays. -/
def cross (a b : Vector3D) : Vector3D :=
  ⟨a.y * b.z - a.z * b.y, a.z * b.x - a.x * b.z, a.x * b.y - a.y * b.x⟩

/-- Euclidean norm: np.linalg.norm, and the magnitude computed in
NumpyGeometryProvider.normalize_vector via math.sqrt of the sum of squares. -/
noncomputable def vnorm (a : Vector3D) : ℝ := Real.sqrt (dot a a)

/-- Componentwise division by the magnitude, as in the normalisation steps of
calculate_rotation_matrix and normalize_vector (the zero test is made by the
callers). -/
noncomputable def unitVec (a : Vector3D) : Vector3D :=
  ⟨a.x / vnorm a, a.y / vnorm a, a.z / vnorm a⟩

/-- NumpyGeometryProvider.normalize_vector: raises ValueError on the zero
vector, embedded as none. -/
noncomputable def normalize_vector (a : Vector3D) : Option Vector3D :=
  if vnorm a = 0 then none else some (unitVec a)

/-- math.degrees: conversion from radians to degrees. -/
noncomputable def degrees (r : ℝ) : ℝ := r * (180 / Real.pi)

/-! ## Matrices (numpy 4x4 and 3x3 arrays) -/

/-- Action of a 3x3 matrix on a Vector3D, written out componentwise as the
numpy matrix-vector product. -/
def mulVec3 (M : Matrix (Fin 3) (Fin 3) ℝ) (v : Vector3D) : Vector3D :=
  ⟨M 0 0 * v.x + M 0 1 * v.y + M 0 2 * v.z,
   M 1 0 * v.x + M 1 1 * v.y + M 1 2 * v.z,
   M 2 0 * v.x + M 2 1 * v.y + M 2 2 * v.z⟩

/-- The skew-symmetric cross-product matrix K built in
calculate_rotation_matrix: [[0, -k2, k1], [k2, 0, -k0], [-k1, k0, 0]]. -/
def skewK (k : Vector3D) : Matrix (Fin 3) (Fin 3) ℝ :=
  !![0, -k.z, k.y; k.z, 0, -k.x; -k.y, k.x, 0]

/-- The 4x4 matrix obtained from np.eye(4) by writing a 3x3 block into the
upper-left corner (matrix_4x4[:3, :3] = R in the source). -/
def embed3 (R : Matrix (Fin 3) (Fin 3) ℝ) : Matrix (Fin 4) (Fin 4) ℝ :=
  !![R 0 0, R 0 1, R 0 2, 0;
     R 1 0, R 1 1, R 1 2, 0;
     R 2 0, R 2 1, R 2 2, 0;
     0, 0, 0, 1]

/-- The uniform scale matrix built in calculate_alignment_matrix. -/
def scale4 (s : ℝ) : Matrix (Fin 4) (Fin 4) ℝ :=
  !![s, 0, 0, 0; 0, s, 0, 0; 0, 0, s, 0; 0, 0, 0, 1]

/-- Upper-left 3x3 block of a 4x4 matrix. -/
def upper3 (M : Matrix (Fin 4) (Fin 4) ℝ) : Matrix (Fin 3) (Fin 3) ℝ :=
  !![M 0 0, M 0 1, M 0 2; M 1 0, M 1 1, M 1 2; M 2 0, M 2 1, M 2 2]

/-! ## Data model (geometry_interfaces.py) -/

/-- Valid axis names: the pydantic validator on GeometryParameters restricts
ear_alignment_axis and nose_tail_axis to the strings x, y, z. -/
inductive Axis where
  | x : Axis
  | y : Axis
  | z : Axis

/-- The target unit vector chosen for an axis name (the same dispatch appears
in calculate_alignment_matrix, calculate_nose_tail_alignment,
calculate_ear_alignment and _calculate_alignment_error). -/
def axisVec : Axis → Vector3D
  | Axis.x => ⟨1, 0, 0⟩
  | Axis.y => ⟨0, 1, 0⟩
  | Axis.z => ⟨0, 0, 1⟩

/-- GeometryParameters (pydantic model).  The field constraints
(scale_factor > 0, 0 < alignment_tolerance ≤ 5) are stated separately as
GeometryParameters.Valid. -/
structure GeometryParameters where
  scale_factor : ℝ
  alignment_tolerance : ℝ
  ear_alignment_axis : Axis
  nose_tail_axis : Axis

/-- The pydantic field validators of GeometryParameters:
scale_factor gt=0, alignment_tolerance gt=0 le=5.0. -/
def GeometryParameters.Valid (p : GeometryParameters) : Prop :=
  0 < p.scale_factor ∧ 0 < p.alignment_tolerance ∧ p.alignment_tolerance ≤ 5

/-- LandmarkSet (pydantic model): nose, tail, left_ear and right_ear are
required fields; face_center is Optional with default None. -/
structure LandmarkSet where
  nose : Vector3D
  tail : Vector3D
  left_ear : Vector3D
  right_ear : Vector3D
  face_center : Option Vector3D

/-- Pydantic validation of LandmarkSet construction data: each of the four
required fields must be present, face_center may be absent.  Missing required
fields raise a ValidationError, embedded as Except.error naming the field. -/
def mkLandmarkSet (nose tail left_ear right_ear face_center : Option Vector3D) :
    Except String LandmarkSet :=
  match nose, tail, left_ear, right_ear with
  | some n, some t, some le, some re =>
      Except.ok ⟨n, t, le, re, face_center⟩
  | none, _, _, _ => Except.error "nose: field required"
  | some _, none, _, _ => Except.error "tail: field required"
  | some _, some _, none, _ => Except.error "left_ear: field required"
  | some _, some _, some _, none => Except.error "right_ear: field required"

/-- AlignmentResult: the alignment_errors dict holds exactly the keys
nose_tail_alignment, ear_alignment and overall_error, embedded as fields. -/
structure AlignmentResult where
  transformation_matrix : Matrix (Fin 4) (Fin 4) ℝ
  nose_tail_alignment : ℝ
  ear_alignment : ℝ
  overall_error : ℝ
  is_valid : Bool

/-! ## QuaternionTransformationCalculator (geometry_service.py) -/

/-- np.allclose(d, 1.0) with the numpy defaults rtol=1e-05, atol=1e-08:
the test |d - 1| ≤ atol + rtol * |1.0|. -/
def allcloseOne (d : ℝ) : Prop := |d - 1| ≤ 1e-8 + 1e-5 * 1

/-- np.allclose(d, -1.0) with the numpy defaults: |d - (-1)| ≤ atol + rtol * |-1.0|. -/
def allcloseNegOne (d : ℝ) : Prop := |d - (-1)| ≤ 1e-8 + 1e-5 * 1

/-- The anti-parallel branch of calculate_rotation_matrix: choose a vector
perp not parallel to v1, set axis = normalize(v1 × perp), and build
R = I + 2 K² (a 180-degree rotation about axis). -/
noncomputable def antiparallelR3 (v1 : Vector3D) : Matrix (Fin 3) (Fin 3) ℝ :=
  let perp : Vector3D := if |v1.x| < 0.9 then ⟨1, 0, 0⟩ else ⟨0, 1, 0⟩
  let axis := unitVec (cross v1 perp)
  1 + (2 : ℝ) • (skewK axis * skewK axis)

/-- The general branch of calculate_rotation_matrix (Rodrigues formula):
k = cross/‖cross‖, θ = acos(clamp(dot)), R = I + sin θ K + (1 − cos θ) K². -/
noncomputable def rodriguesR3 (v1 v2 : Vector3D) : Matrix (Fin 3) (Fin 3) ℝ :=
  let k := unitVec (cross v1 v2)
  let θ := Real.arccos (max (-1) (min 1 (dot v1 v2)))
  1 + Real.sin θ • skewK k + (1 - Real.cos θ) • (skewK k * skewK k)

/-- QuaternionTransformationCalculator.calculate_rotation_matrix.  Raises
ValueError (none) on zero vectors; otherwise normalises both vectors and
dispatches on np.allclose tests of their dot product. -/
noncomputable def calculate_rotation_matrix (from_vector to_vector : Vector3D) :
    Option (Matrix (Fin 4) (Fin 4) ℝ) :=
  if vnorm from_vector = 0 ∨ vnorm to_vector = 0 then none
  else if allcloseOne (dot (unitVec from_vector) (unitVec to_vector)) then some 1
  else if allcloseNegOne (dot (unitVec from_vector) (unitVec to_vector)) then
    some (embed3 (antiparallelR3 (unitVec from_vector)))
  else some (embed3 (rodriguesR3 (unitVec from_vector) (unitVec to_vector)))

/-- QuaternionTransformationCalculator.calculate_alignment_matrix: rotation of
the nose→tail vector onto the target axis, then combined = rotation · scale. -/
noncomputable def calculate_alignment_matrix (landmarks : LandmarkSet)
    (params : GeometryParameters) : Option (Matrix (Fin 4) (Fin 4) ℝ) :=
  (calculate_rotation_matrix (vsub landmarks.tail landmarks.nose)
    (axisVec params.nose_tail_axis)).map
    (fun rotation_matrix => rotation_matrix * scale4 params.scale_factor)

/-- QuaternionTransformationCalculator.apply_transformation on a single
point: homogeneous coordinates, transform, then divide by the last component,
raising ValueError (none) when it is zero. -/
noncomputable def applyTransformationPoint (M : Matrix (Fin 4) (Fin 4) ℝ)
    (p : Vector3D) : Option Vector3D :=
  if M.mulVec ![p.x, p.y, p.z, 1] 3 = 0 then none
  else some ⟨M.mulVec ![p.x, p.y, p.z, 1] 0 / M.mulVec ![p.x, p.y, p.z, 1] 3,
    M.mulVec ![p.x, p.y, p.z, 1] 1 / M.mulVec ![p.x, p.y, p.z, 1] 3,
    M.mulVec ![p.x, p.y, p.z, 1] 2 / M.mulVec ![p.x, p.y, p.z, 1] 3⟩

/-- apply_transformation on a list of points (fails on the first bad point,
as the source raises inside the loop). -/
noncomputable def apply_transformation (M : Matrix (Fin 4) (Fin 4) ℝ)
    (points : List Vector3D) : Option (List Vector3D) :=
  points.mapM (applyTransformationPoint M)

/-! ## PrecisionAlignmentCalculator (geometry_service.py) -/

/-- PrecisionAlignmentCalculator._calculate_alignment_error: normalise the
vector (ValueError on zero), take the dot product with the target axis, clamp
to [-1, 1], and return degrees(acos(|dot|)). -/
noncomputable def calculate_alignment_error (vector : Vector3D) (target_axis : Axis) :
    Option ℝ :=
  (normalize_vector vector).map (fun normalized =>
    degrees (Real.arccos |max (-1) (min 1 (dot normalized (axisVec target_axis)))|))

/-- PrecisionAlignmentCalculator.verify_alignment: transform the four
landmarks (and face_center when present), rebuild the nose-tail and ear
vectors from the transformed landmarks, compute both alignment errors, take
their maximum, and compare against the alignment tolerance. -/
noncomputable def verify_alignment (landmarks : LandmarkSet)
    (matrix : Matrix (Fin 4) (Fin 4) ℝ) (params : GeometryParameters) :
    Option AlignmentResult := do
  let tnose ← applyTransformationPoint matrix landmarks.nose
  let ttail ← applyTransformationPoint matrix landmarks.tail
  let tleft ← applyTransformationPoint matrix landmarks.left_ear
  let tright ← applyTransformationPoint matrix landmarks.right_ear
  let _fc ← match landmarks.face_center with
    | none => some none
    | some f => (applyTransformationPoint matrix f).map some
  let nose_tail_vector := vsub ttail tnose
  let ear_vector := vsub tright tleft
  let nose_tail_error ← calculate_alignment_error nose_tail_vector params.nose_tail_axis
  let ear_error ← calculate_alignment_error ear_vector params.ear_alignment_axis
  let overall_error := max nose_tail_error ear_error
  some ⟨matrix, nose_tail_error, ear_error, overall_error,
    if overall_error ≤ params.alignment_tolerance then true else false⟩

/-- Modelled from the spec sentence for C6 (refinement target): the per-axis
angular deviation written as degrees(acos(|normalize(v)·target_axis|)),
without the clamping step that the code performs before taking the absolute
value. -/
noncomputable def specAlignmentErrorDeg (v : Vector3D) (target_axis : Axis) : ℝ :=
  degrees (Real.arccos |dot (unitVec v) (axisVec target_axis)|)

/-! ## Concrete instances used in counterexamples and witnesses -/

/-- Landmarks with nose→tail vector exactly (1,0,0) and ear vector (0,1,0)
(the ear vector ends up perpendicular to the ear axis after alignment). -/
def cexLandmarks : LandmarkSet := ⟨⟨0, 0, 0⟩, ⟨1, 0, 0⟩, ⟨0, 0, 0⟩, ⟨0, 1, 0⟩, none⟩

/-- Parameters with nose_tail_axis z, scale_factor 8 and the default
tolerance 0.5 and ear axis x. -/
def cexParams : GeometryParameters := ⟨8, 0.5, Axis.x, Axis.z⟩

/-- Landmarks with nose→tail vector (1,0,0) and ear vector (0,0,1), which the
z-alignment rotation carries onto the x axis. -/
def alignedLandmarks : LandmarkSet := ⟨⟨0, 0, 0⟩, ⟨1, 0, 0⟩, ⟨0, 0, 0⟩, ⟨0, 0, 1⟩, none⟩

/-- Landmarks whose nose-tail and ear vectors both equal (1,0,0). -/
def landmarksC6 : LandmarkSet := ⟨⟨0, 0, 0⟩, ⟨1, 0, 0⟩, ⟨0, 0, 0⟩, ⟨1, 0, 0⟩, none⟩

/-- Parameters aligning both vectors to the x axis. -/
def paramsC6 : GeometryParameters := ⟨8, 0.5, Axis.x, Axis.x⟩

/-- The alignment result of verifying landmarksC6 under the identity block. -/
def resultC6 : AlignmentResult := ⟨embed3 1, 0, 0, 0, true⟩

/-- The combined matrix produced by calculate_alignment_matrix on a cloud with
nose→tail vector (1,0,0), nose_tail_axis z and scale_factor 8: the Rodrigues
rotation block scaled by 8. -/
noncomputable def matC1 : Matrix (Fin 4) (Fin 4) ℝ :=
  embed3 ((8 : ℝ) • rodriguesR3 ⟨1, 0, 0⟩ ⟨0, 0, 1⟩)

/-- The alignment result of the round trip on alignedLandmarks. -/
noncomputable def resultC1 : AlignmentResult := ⟨matC1, 0, 0, 0, true⟩

/-! ## Landmark detectors (ISI-Integration/src/python)

The detectors work on numpy Nx3 arrays; a point is embedded as a function
Fin 3 → ℝ and a vertex array as a list of points. -/

/-- A mesh point (one row of a numpy Nx3 array). -/
abbrev Pt : Type := Fin 3 → ℝ

/-- np.dot on length-3 arrays. -/
def dotP (a b : Pt) : ℝ := a 0 * b 0 + a 1 * b 1 + a 2 * b 2

/-- np.linalg.norm on a length-3 array. -/
noncomputable def normP (a : Pt) : ℝ := Real.sqrt (dotP a a)

/-- Pointwise difference (numpy broadcast subtraction). -/
def subP (a b : Pt) : Pt := fun i => a i - b i

/-- Pointwise sum. -/
def addP (a b : Pt) : Pt := fun i => a i + b i

/-- Scalar multiple. -/
def smulP (c : ℝ) (a : Pt) : Pt := fun i => c * a i

/-- np.mean of a list of floats (numpy yields NaN on an empty list; here the
division by zero length gives 0). -/
noncomputable def listMean (l : List ℝ) : ℝ := l.sum / l.length

/-- np.max of a list (numpy raises on empty input; callers pass non-empty
lists). -/
noncomputable def listMax : List ℝ → ℝ
  | [] => 0
  | x :: xs => xs.foldl max x

/-- np.min of a list. -/
noncomputable def listMin : List ℝ → ℝ
  | [] => 0
  | x :: xs => xs.foldl min x

/-- Helper for np.argmax: scan with the best value, its index, and the index
of the current element; a strictly larger value replaces the best, so the
first occurrence of the maximum wins, as in numpy. -/
noncomputable def argmaxGo : List ℝ → ℝ → ℕ → ℕ → ℕ
  | [], _, best, _ => best
  | v :: vs, bv, best, cur =>
      if bv < v then argmaxGo vs v cur (cur + 1) else argmaxGo vs bv best (cur + 1)

/-- np.argmax on a list (0 on empty input, where numpy raises). -/
noncomputable def argmaxList : List ℝ → ℕ
  | [] => 0
  | v :: vs => argmaxGo vs v 0 1

/-- Helper for np.argmin. -/
noncomputable def argminGo : List ℝ → ℝ → ℕ → ℕ → ℕ
  | [], _, best, _ => best
  | v :: vs, bv, best, cur =>
      if v < bv then argminGo vs v cur (cur + 1) else argminGo vs bv best (cur + 1)

/-- np.argmin on a list. -/
noncomputable def argminList : List ℝ → ℕ
  | [] => 0
  | v :: vs => argminGo vs v 0 1

/-- np.diff of a list: successive differences. -/
def listDiff (l : List ℝ) : List ℝ := List.zipWith (fun x y => y - x) l l.tail

/-- Full discrete convolution (np.convolve mode "full"). -/
def convolveFull (a k : List ℝ) : List ℝ :=
  (List.range (a.length + k.length - 1)).map (fun n =>
    ((List.range (n + 1)).map (fun j => a.getD j 0 * k.getD (n - j) 0)).sum)

/-- np.convolve mode "same": the centred middle part of the full convolution. -/
def convolveSame (a k : List ℝ) : List ℝ :=
  ((convolveFull a k).drop ((k.length - 1) / 2)).take a.length

/-- np.mean(vertices, axis=0): the centroid of the cloud. -/
noncomputable def centroidP (vs : List Pt) : Pt :=
  fun i => (vs.map (fun v => v i)).sum / vs.length

/-- np.cov of the centred vertices (transposed), with the numpy default
divisor N - 1. -/
noncomputable def covMatrix (vs : List Pt) : Matrix (Fin 3) (Fin 3) ℝ :=
  Matrix.of fun i j =>
    (vs.map (fun v => (v i - centroidP vs i) * (v j - centroidP vs j))).sum /
      ((vs.length : ℝ) - 1)

/-- The documented contract of np.linalg.eigh on a symmetric matrix: the
columns of evecs are an orthonormal set of eigenvectors of C and the
eigenvalues come back in ascending order. -/
def EighSpec (C : Matrix (Fin 3) (Fin 3) ℝ) (evals : Fin 3 → ℝ)
    (evecs : Matrix (Fin 3) (Fin 3) ℝ) : Prop :=
  (∀ j k, dotP (fun i => evecs i j) (fun i => evecs i k) =
    if j = k then 1 else 0) ∧
  (∀ j, C.mulVec (fun i => evecs i j) = evals j • (fun i => evecs i j)) ∧
  evals 0 ≤ evals 1 ∧ evals 1 ≤ evals 2

/-- np.argsort(eigenvalues)[::-1] for the ascending eigh output: since the
eigenvalues are already ascending, argsort is the identity permutation and
the reversal selects indices 2, 1, 0. -/
def sortIdxDesc : Fin 3 → Fin 3 := ![2, 1, 0]

/-- principal_axes = eigenvectors[:, sort_indices].T: row i is the column of
evecs selected by the descending sort. -/
def principalAxes (evecs : Matrix (Fin 3) (Fin 3) ℝ) : Fin 3 → Pt :=
  fun i => fun j => evecs j (sortIdxDesc i)

/-- The eigenvalues in the sorted (descending) order. -/
def sortedEvals (evals : Fin 3 → ℝ) : Fin 3 → ℝ := fun i => evals (sortIdxDesc i)

/-- The centroid/principal-axes pair computed by _analyze_mesh_geometry. -/
structure MeshFrame where
  centroid : Pt
  principal_axes : Fin 3 → Pt

/-- DensityLandmarkDetector._analyze_mesh_geometry: raises ValueError only
when the stored vertices are None; otherwise it always computes the centroid
and the PCA axes, with no minimum-point or degeneracy check.  The call to
np.linalg.eigh is external and is modelled by the (evals, evecs) arguments,
constrained by EighSpec in the theorems. -/
noncomputable def analyze_mesh_geometry (vertices : Option (List Pt)) (_evals : Fin 3 → ℝ)
    (evecs : Matrix (Fin 3) (Fin 3) ℝ) : Except String MeshFrame :=
  match vertices with
  | none => Except.error "No vertices available for analysis"
  | some vs => Except.ok ⟨centroidP vs, principalAxes evecs⟩

/-- Projections of the vertices onto the primary axis (relative to the
centroid). -/
def projectionsP (vs : List Pt) (c a : Pt) : List ℝ :=
  vs.map (fun v => dotP (subP v c) a)

/-- The slice positions np.linspace(min_proj, max_proj, 40). -/
noncomputable def slicePositions (minP maxP : ℝ) : List ℝ :=
  (List.range 40).map (fun i => minP + (maxP - minP) * i / 39)

/-- slice_thickness = (max_proj - min_proj) / (num_slices * 1.5). -/
noncomputable def sliceThickness (minP maxP : ℝ) : ℝ := (maxP - minP) / (40 * 1.5)

/-- The vertices whose projection lies within the slice. -/
noncomputable def sliceVertices (vs : List Pt) (c a : Pt) (pos thick : ℝ) : List Pt :=
  vs.filter (fun v => |dotP (subP v c) a - pos| ≤ thick)

/-- One slice record (density, centre position, vertex count), produced only
when the slice holds more than 5 vertices.  The density is
vertex_count / (π max_radius²), with the 1e-6 floor of the source when the
maximal radius is 0 (the avg_radius of the source is computed but unused). -/
noncomputable def sliceDensity (vs : List Pt) (c a : Pt) (pos thick : ℝ) :
    Option (ℝ × ℝ × ℕ) :=
  if 5 < (sliceVertices vs c a pos thick).length then
    some (((sliceVertices vs c a pos thick).length : ℝ) /
        (if 0 < listMax ((sliceVertices vs c a pos thick).map (fun v =>
            normP (subP (subP v (addP c (smulP pos a)))
              (smulP (dotP (subP v (addP c (smulP pos a))) a) a)))) then
          Real.pi * listMax ((sliceVertices vs c a pos thick).map (fun v =>
            normP (subP (subP v (addP c (smulP pos a)))
              (smulP (dotP (subP v (addP c (smulP pos a))) a) a)))) ^ 2
        else 1e-6),
      pos, (sliceVertices vs c a pos thick).length)
  else none

/-- The usable slice records along the primary axis. -/
noncomputable def usableSliceRecords (vs : List Pt) (c a : Pt) : List (ℝ × ℝ × ℕ) :=
  (slicePositions (listMin (projectionsP vs c a)) (listMax (projectionsP vs c a))).filterMap
    (fun pos => sliceDensity vs c a pos
      (sliceThickness (listMin (projectionsP vs c a)) (listMax (projectionsP vs c a))))

/-- The three landmarks set by the detector. -/
structure DensityLandmarks where
  nose : Pt
  tail_tip : Pt
  tail_attachment : Pt

/-- DensityLandmarkDetector._fallback_to_extremes: the vertex with the
largest projection becomes the nose, the one with the smallest the tail tip,
and the attachment point sits at 70 percent of the way from nose to tail. -/
noncomputable def fallback_to_extremes (vs : List Pt) (projs : List ℝ) :
    DensityLandmarks :=
  ⟨vs.getD (argmaxList projs) (fun _ => 0),
   vs.getD (argminList projs) (fun _ => 0),
   addP (vs.getD (argmaxList projs) (fun _ => 0))
     (smulP 0.7 (subP (vs.getD (argminList projs) (fun _ => 0))
       (vs.getD (argmaxList projs) (fun _ => 0))))⟩

/-- The density-analysis path of _detect_nose_and_tail_by_density (taken when
at least 10 usable slices exist): smooth the density curve, find the steepest
density increase, partition at the transition, identify the lower-density
side as the tail, and pick the extreme vertices of each region (falling back
to the global extremes when a region is empty or the partition fails). -/
noncomputable def densityBranch (vs : List Pt) (c a : Pt) : DensityLandmarks :=
  let projs := projectionsP vs c a
  let minP := listMin projs
  let maxP := listMax projs
  let records := usableSliceRecords vs c a
  let densities := records.map (fun r => r.1)
  let centers := records.map (fun r => r.2.1)
  let window := max 3 (records.length / 8)
  let smoothed := convolveSame densities ((List.range window).map (fun _ => (1 : ℝ) / window))
  let transition := centers.getD (argmaxList (listDiff smoothed)) 0
  let paired := centers.zip smoothed
  let tailSide := paired.filter (fun pr => pr.1 ≤ transition)
  let bodySide := paired.filter (fun pr => transition < pr.1)
  if 2 < tailSide.length ∧ 2 < bodySide.length then
    let tailAvg := listMean (tailSide.map (fun pr => pr.2))
    let bodyAvg := listMean (bodySide.map (fun pr => pr.2))
    let tailCenter := if tailAvg < bodyAvg then listMean (tailSide.map (fun pr => pr.1))
      else listMean (bodySide.map (fun pr => pr.1))
    let headCenter := if tailAvg < bodyAvg then listMean (bodySide.map (fun pr => pr.1))
      else listMean (tailSide.map (fun pr => pr.1))
    let tol := (maxP - minP) * 0.25
    let pairedVerts := vs.zip projs
    let headCand := pairedVerts.filter (fun vp => |vp.2 - headCenter| ≤ tol)
    let nose := if 0 < headCand.length then
        (headCand.getD (if tailCenter < headCenter then
            argmaxList (headCand.map (fun vp => vp.2))
          else argminList (headCand.map (fun vp => vp.2))) ((fun _ => 0), 0)).1
      else vs.getD (if tailCenter < headCenter then argmaxList projs
        else argminList projs) (fun _ => 0)
    let tailCand := pairedVerts.filter (fun vp => |vp.2 - tailCenter| ≤ tol)
    let tailPt := if 0 < tailCand.length then
        (tailCand.getD (if tailCenter < headCenter then
            argminList (tailCand.map (fun vp => vp.2))
          else argmaxList (tailCand.map (fun vp => vp.2))) ((fun _ => 0), 0)).1
      else vs.getD (if tailCenter < headCenter then argminList projs
        else argmaxList projs) (fun _ => 0)
    let attach3d := addP c (smulP transition a)
    let attach := vs.getD (argminList (vs.map (fun v => normP (subP v attach3d)))) (fun _ => 0)
    ⟨nose, tailPt, attach⟩
  else fallback_to_extremes vs projs

/-- DensityLandmarkDetector._detect_nose_and_tail_by_density: fewer than 10
usable slices trigger the fallback to the global projection extremes. -/
noncomputable def detect_nose_and_tail_by_density (vs : List Pt) (c a : Pt) :
    DensityLandmarks :=
  if (usableSliceRecords vs c a).length < 10 then
    fallback_to_extremes vs (projectionsP vs c a)
  else densityBranch vs c a

/-- The metadata dict of DensityLandmarkDetector._format_results. -/
structure DensityMetadata where
  detection_method : String
  coordinate_system : String
  centroid : Option Pt
  principal_axes : Option (Fin 3 → Pt)
  landmarks_detected : List String
  vertex_count : ℕ

/-- The result dict of DensityLandmarkDetector._format_results. -/
structure DensityResults where
  landmarks : DensityLandmarks
  metadata : DensityMetadata

/-- DensityLandmarkDetector._format_results: the metadata always reports
detection_method "density_analysis", whichever path produced the landmarks. -/
def format_results (vs : List Pt) (c : Pt) (axes : Fin 3 → Pt)
    (lm : DensityLandmarks) : DensityResults :=
  ⟨lm, ⟨"density_analysis", "mesh_relative", some c, some axes,
    ["nose", "tail_tip", "tail_attachment"], vs.length⟩⟩

/-- DensityLandmarkDetector.detect_landmarks: analyze the geometry, detect
nose and tail by density and format the results (the except clause
re-raises, so a failure of the body propagates; with vertices stored and the
eigh result given, the body is total). -/
noncomputable def density_detect_landmarks (vertices : List Pt) (_evals : Fin 3 → ℝ)
    (evecs : Matrix (Fin 3) (Fin 3) ℝ) : DensityResults :=
  format_results vertices (centroidP vertices) (principalAxes evecs)
    (detect_nose_and_tail_by_density vertices (centroidP vertices)
      (principalAxes evecs 0))

/-- A numpy 2-D array: the column count of the shape together with the rows. -/
structure NpArray where
  cols : ℕ
  rows : List (List ℝ)

/-- A row of a validated Nx3 array as a point. -/
def rowToPt (r : List ℝ) : Pt := fun i => r.getD i 0

/-- np.linalg.norm(np.max(vertices, axis=0) - np.min(vertices, axis=0)). -/
noncomputable def meshSize (vs : List Pt) : ℝ :=
  normP (fun i => listMax (vs.map (fun v => v i)) - listMin (vs.map (fun v => v i)))

/-- The calculate_sharpness closure of
GeometricLandmarkDetector._detect_nose_and_tail: sample three thin slices
inward from the extreme and return the mean increase of the mean
cross-sectional radius (0 when fewer than two samples exist). -/
noncomputable def calcSharpness (vs : List Pt) (extreme dir : Pt) (msize : ℝ) : ℝ :=
  let samples := (List.range 3).filterMap (fun i =>
    if 0 < (vs.filter (fun v =>
        |dotP (subP v (addP extreme (smulP (msize * 0.02 * ((i : ℝ) + 1)) dir))) dir| ≤
          msize * 0.01)).length then
      some (listMean ((vs.filter (fun v =>
          |dotP (subP v (addP extreme (smulP (msize * 0.02 * ((i : ℝ) + 1)) dir))) dir| ≤
            msize * 0.01)).map (fun v =>
        normP (subP (subP v (addP extreme (smulP (msize * 0.02 * ((i : ℝ) + 1)) dir)))
          (smulP (dotP (subP v (addP extreme (smulP (msize * 0.02 * ((i : ℝ) + 1)) dir))) dir)
            dir)))))
    else none)
  if 2 ≤ samples.length then listMean (listDiff samples) else 0

/-- GeometricLandmarkDetector._detect_nose_and_tail: classify the two
projection extremes as nose/tail by local density and sharpness scores, with
the density-check swap of the source. -/
noncomputable def geoDetectNoseTail (vs : List Pt) (axes : Fin 3 → Pt) (c : Pt) :
    DensityLandmarks :=
  let projs := vs.map (fun v => dotP (subP v c) (axes 0))
  let extreme1 := vs.getD (argminList projs) (fun _ => 0)
  let extreme2 := vs.getD (argmaxList projs) (fun _ => 0)
  let msize := meshSize vs
  let nearby1 := (vs.filter (fun v => normP (subP v extreme1) ≤ msize * 0.03)).length
  let nearby2 := (vs.filter (fun v => normP (subP v extreme2) ≤ msize * 0.03)).length
  let dir1 := smulP (1 / normP (subP extreme2 extreme1)) (subP extreme2 extreme1)
  let dir2 := smulP (1 / normP (subP extreme1 extreme2)) (subP extreme1 extreme2)
  let score1 := -(nearby1 : ℝ) + calcSharpness vs extreme1 dir1 msize * 1000
  let score2 := -(nearby2 : ℝ) + calcSharpness vs extreme2 dir2 msize * 1000
  let nosePt := if score2 < score1 then extreme1 else extreme2
  let tailPt := if score2 < score1 then extreme2 else extreme1
  let noseDensity := if score2 < score1 then nearby1 else nearby2
  let tailDensity := if score2 < score1 then nearby2 else nearby1
  let nose := if tailDensity < noseDensity then tailPt else nosePt
  let tailFinal := if tailDensity < noseDensity then nosePt else tailPt
  ⟨nose, tailFinal, addP nose (smulP 0.7 (subP tailFinal nose))⟩

/-- The metadata dict of GeometricLandmarkDetector._format_results. -/
structure GeoMetadata where
  detection_method : String
  coordinate_system : String
  principal_axes : Option (Fin 3 → Pt)
  centroid : Option Pt
  vertex_count : ℕ
  landmarks_detected : List String

/-- The result dict of GeometricLandmarkDetector._format_results. -/
structure GeoResults where
  landmarks : DensityLandmarks
  metadata : GeoMetadata

/-- GeometricLandmarkDetector._format_results (all coordinates are real,
hence finite, so the finiteness filter keeps all three landmarks). -/
def geoFormatResults (vs : List Pt) (axes : Fin 3 → Pt) (c : Pt)
    (lm : DensityLandmarks) : GeoResults :=
  ⟨lm, ⟨"pure_geometric", "mesh_relative", some axes, some c, vs.length,
    ["nose", "tail_tip", "tail_attachment"]⟩⟩

/-- GeometricLandmarkDetector.detect_landmarks: raises ValueError on any
array whose second dimension is not 3, before the try block; otherwise runs
the pipeline (sklearn PCA is external and modelled by the axes argument) and
the except clause re-raises any internal exception. -/
noncomputable def geo_detect_landmarks (axes : Fin 3 → Pt) (arr : NpArray) :
    Except String GeoResults :=
  if arr.cols ≠ 3 then Except.error "Vertices must be Nx3 array"
  else
    Except.ok (geoFormatResults (arr.rows.map rowToPt) axes
      (centroidP (arr.rows.map rowToPt))
      (geoDetectNoseTail (arr.rows.map rowToPt) axes
        (centroidP (arr.rows.map rowToPt))))

/-- A degenerate cloud: two coincident points (fewer than 4 points, all
coincident). -/
def pts2 : List Pt := [fun _ => 0, fun _ => 0]

/-- Zero eigenvalues for the zero covariance matrix of pts2. -/
def evals0 : Fin 3 → ℝ := fun _ => 0

/-- A 6-point cloud with diagonal covariance matrix diag(2/5, 8/5, 18/5). -/
def pts6 : List Pt :=
  [![1, 0, 0], ![-1, 0, 0], ![0, 2, 0], ![0, -2, 0], ![0, 0, 3], ![0, 0, -3]]

/-- The ascending eigenvalues of the covariance matrix of pts6. -/
noncomputable def evals6 : Fin 3 → ℝ := ![2/5, 8/5, 18/5]

/-- A 2-column array, rejected by the geometric detector. -/
def badArray : NpArray := ⟨2, [[0, 0], [1, 1]]⟩

/-! # Theorems -/

/-! ### Elementary algebraic lemmas about the vector operations -/

theorem dot_self_nonneg (a : Vector3D) : 0 ≤ dot a a := by
  simp only [dot]
  nlinarith [mul_self_nonneg a.x, mul_self_nonneg a.y, mul_self_nonneg a.z]

theorem vnorm_nonneg (a : Vector3D) : 0 ≤ vnorm a := Real.sqrt_nonneg _

theorem sq_vnorm (a : Vector3D) : vnorm a * vnorm a = dot a a :=
  Real.mul_self_sqrt (dot_self_nonneg a)

theorem vnorm_eq_zero_iff (a : Vector3D) : vnorm a = 0 ↔ dot a a = 0 := by
  unfold vnorm
  exact Real.sqrt_eq_zero (dot_self_nonneg a)

theorem dot_unitVec_self (a : Vector3D) (h : vnorm a ≠ 0) :
    dot (unitVec a) (unitVec a) = 1 := by
  have h2 : vnorm a * vnorm a = dot a a := sq_vnorm a
  simp only [unitVec, dot, div_mul_div_comm] at *
  field_simp
  linarith [h2]

theorem unitVec_smul_eq (a : Vector3D) : vsmul (vnorm a) (unitVec a) = a ∨ vnorm a = 0 := by
  rcases eq_or_ne (vnorm a) 0 with h | h
  · exact Or.inr h
  · left
    simp only [vsmul, unitVec]
    ext <;> field_simp

/-- The vector rebuilt from its unit direction: a = ‖a‖ • unitVec a. -/
theorem smul_unitVec (a : Vector3D) (h : vnorm a ≠ 0) :
    a = vsmul (vnorm a) (unitVec a) := by
  rcases unitVec_smul_eq a with h1 | h1
  · exact h1.symm
  · exact absurd h1 h

theorem dot_vsmul_left (c : ℝ) (a b : Vector3D) : dot (vsmul c a) b = c * dot a b := by
  simp only [dot, vsmul]; ring

theorem dot_vsmul_right (c : ℝ) (a b : Vector3D) : dot a (vsmul c b) = c * dot a b := by
  simp only [dot, vsmul]; ring

theorem cross_vsmul_left (c : ℝ) (a b : Vector3D) :
    cross (vsmul c a) b = vsmul c (cross a b) := by
  simp only [cross, vsmul]; ext <;> ring

theorem dot_cross_left (a b : Vector3D) : dot (cross a b) a = 0 := by
  simp only [dot, cross]; ring

theorem dot_cross_right (a b : Vector3D) : dot (cross a b) b = 0 := by
  simp only [dot, cross]; ring

/-- Lagrange identity for the cross product. -/
theorem lagrange_cross (a b : Vector3D) :
    dot (cross a b) (cross a b) = dot a a * dot b b - dot a b * dot a b := by
  simp only [dot, cross]; ring

/-- Triple product expansion a × (a × x) = (a·x) a − (a·a) x. -/
theorem cross_cross_self (a x : Vector3D) :
    cross a (cross a x) = vsub (vsmul (dot a x) a) (vsmul (dot a a) x) := by
  simp only [cross, dot, vsub, vsmul]; ext <;> ring

/-- Expansion (a × b) × a = (a·a) b − (a·b) a. -/
theorem cross_cross_left (a b : Vector3D) :
    cross (cross a b) a = vsub (vsmul (dot a a) b) (vsmul (dot a b) a) := by
  simp only [cross, dot, vsub, vsmul]; ext <;> ring

/-- Unit vectors with dot product exactly 1 are equal. -/
theorem eq_of_dot_eq_one (a b : Vector3D) (ha : dot a a = 1) (hb : dot b b = 1)
    (hab : dot a b = 1) : a = b := by
  have hx : (a.x - b.x) ^ 2 + (a.y - b.y) ^ 2 + (a.z - b.z) ^ 2 = 0 := by
    simp only [dot] at ha hb hab
    nlinarith
  have h1 : a.x - b.x = 0 := by nlinarith [sq_nonneg (a.x - b.x), sq_nonneg (a.y - b.y), sq_nonneg (a.z - b.z)]
  have h2 : a.y - b.y = 0 := by nlinarith [sq_nonneg (a.x - b.x), sq_nonneg (a.y - b.y), sq_nonneg (a.z - b.z)]
  have h3 : a.z - b.z = 0 := by nlinarith [sq_nonneg (a.x - b.x), sq_nonneg (a.y - b.y), sq_nonneg (a.z - b.z)]
  ext <;> linarith

/-- Unit vectors with dot product exactly −1 are opposite. -/
theorem eq_neg_of_dot_eq_neg_one (a b : Vector3D) (ha : dot a a = 1) (hb : dot b b = 1)
    (hab : dot a b = -1) : a = vneg b := by
  have := eq_of_dot_eq_one a (vneg b) ha (by simp only [dot, vneg] at *; nlinarith)
    (by simp only [dot, vneg] at *; nlinarith)
  exact this

/-! ### Matrix action lemmas -/

theorem mulVec3_one (v : Vector3D) : mulVec3 1 v = v := by
  simp [mulVec3, Matrix.one_apply]

theorem mulVec3_add (A B : Matrix (Fin 3) (Fin 3) ℝ) (v : Vector3D) :
    mulVec3 (A + B) v = vadd (mulVec3 A v) (mulVec3 B v) := by
  simp only [mulVec3, vadd, Matrix.add_apply]; ext <;> ring

theorem mulVec3_smul (c : ℝ) (A : Matrix (Fin 3) (Fin 3) ℝ) (v : Vector3D) :
    mulVec3 (c • A) v = vsmul c (mulVec3 A v) := by
  simp only [mulVec3, vsmul, Matrix.smul_apply, smul_eq_mul]; ext <;> ring

theorem mulVec3_vsmul (A : Matrix (Fin 3) (Fin 3) ℝ) (c : ℝ) (v : Vector3D) :
    mulVec3 A (vsmul c v) = vsmul c (mulVec3 A v) := by
  simp only [mulVec3, vsmul]; ext <;> ring

theorem mulVec3_vsub (A : Matrix (Fin 3) (Fin 3) ℝ) (v w : Vector3D) :
    mulVec3 A (vsub v w) = vsub (mulVec3 A v) (mulVec3 A w) := by
  simp only [mulVec3, vsub]; ext <;> ring

/-- Action of the skew matrix: K v = k × v. -/
theorem skewK_mulVec (k v : Vector3D) : mulVec3 (skewK k) v = cross k v := by
  simp only [skewK, mulVec3, cross]
  norm_num [Matrix.cons_val_zero, Matrix.cons_val_one, Matrix.head_cons]
  refine ⟨by ring, by ring, by ring⟩

/-- Action of the square of the skew matrix: K (K v) = k × (k × v). -/
theorem skewK_sq_mulVec (k v : Vector3D) :
    mulVec3 (skewK k * skewK k) v = cross k (cross k v) := by
  simp only [skewK, mulVec3, cross, Matrix.mul_apply, Fin.sum_univ_three]
  norm_num [Matrix.cons_val_zero, Matrix.cons_val_one, Matrix.head_cons]
  refine ⟨by ring, by ring, by ring⟩

/-! ## Correctness of the three branches of calculate_rotation_matrix -/

theorem unitVec_as_vsmul (a : Vector3D) : unitVec a = vsmul (1 / vnorm a) a := by
  simp only [unitVec, vsmul]; ext <;> ring

theorem dot_unitVec_left (a v : Vector3D) : dot (unitVec a) v = dot a v / vnorm a := by
  simp only [unitVec, dot]; ring

theorem vnorm_eq_one (a : Vector3D) (h : dot a a = 1) : vnorm a = 1 := by
  simp [vnorm, h]

theorem unitVec_of_unit (a : Vector3D) (h : dot a a = 1) : unitVec a = a := by
  simp [unitVec, vnorm_eq_one a h]

/-- For unit vectors the dot product lies in [-1, 1] (Cauchy-Schwarz via the
Lagrange identity). -/
theorem abs_dot_le_one (a b : Vector3D) (ha : dot a a = 1) (hb : dot b b = 1) :
    |dot a b| ≤ 1 := by
  have h := lagrange_cross a b
  have h2 := dot_self_nonneg (cross a b)
  rw [abs_le]
  constructor <;> nlinarith

/-- Core computation for the anti-parallel branch: a 180-degree rotation about
any unit axis perpendicular to v maps v to -v. -/
theorem antiparallel_core (v1 a : Vector3D) (ha : vnorm a ≠ 0) (hperp : dot a v1 = 0) :
    mulVec3 (1 + (2 : ℝ) • (skewK (unitVec a) * skewK (unitVec a))) v1 = vneg v1 := by
  rw [mulVec3_add, mulVec3_smul, skewK_sq_mulVec, cross_cross_self, mulVec3_one]
  have hk : dot (unitVec a) v1 = 0 := by
    rw [dot_unitVec_left, hperp, zero_div]
  have hkk : dot (unitVec a) (unitVec a) = 1 := dot_unitVec_self a ha
  rw [hk, hkk]
  simp only [vadd, vsub, vsmul, vneg]
  ext <;> ring

/-- The anti-parallel branch matrix sends the (unit) input vector to its
negation. -/
theorem antiparallelR3_maps (v1 : Vector3D) (h1 : dot v1 v1 = 1) :
    mulVec3 (antiparallelR3 v1) v1 = vneg v1 := by
  unfold antiparallelR3
  split_ifs with h
  · refine antiparallel_core v1 _ ?_ (dot_cross_left v1 ⟨1, 0, 0⟩)
    rw [Ne, vnorm_eq_zero_iff]
    have hx : |v1.x| < 0.9 := h
    rw [abs_lt] at hx
    simp only [cross, dot] at h1 ⊢
    nlinarith
  · refine antiparallel_core v1 _ ?_ (dot_cross_left v1 ⟨0, 1, 0⟩)
    rw [Ne, vnorm_eq_zero_iff]
    have hx : ¬ |v1.x| < 0.9 := h
    push_neg at hx
    have hx2 : (0.9 : ℝ) ^ 2 ≤ v1.x ^ 2 := by
      have := sq_abs v1.x
      nlinarith [abs_nonneg v1.x]
    simp only [cross, dot] at h1 ⊢
    nlinarith

/-- Correctness of the general Rodrigues branch: for unit vectors whose dot
product is strictly inside the allclose bands, the constructed rotation maps
v1 exactly to v2. -/
theorem rodriguesR3_maps (v1 v2 : Vector3D) (h1 : dot v1 v1 = 1) (h2 : dot v2 v2 = 1)
    (hno : ¬ allcloseOne (dot v1 v2)) (hnn : ¬ allcloseNegOne (dot v1 v2)) :
    mulVec3 (rodriguesR3 v1 v2) v1 = v2 := by
  have habs : |dot v1 v2| ≤ 1 := abs_dot_le_one v1 v2 h1 h2
  have hne1 : dot v1 v2 ≠ 1 := by
    intro h
    exact hno (by simp [allcloseOne, h]; norm_num)
  have hne2 : dot v1 v2 ≠ -1 := by
    intro h
    exact hnn (by simp [allcloseNegOne, h]; norm_num)
  set d := dot v1 v2 with hd
  have hdlt : |d| < 1 := lt_of_le_of_ne habs (by
    intro h
    rcases abs_eq (by norm_num : (0:ℝ) ≤ 1) |>.mp h with h | h
    · exact hne1 h
    · exact hne2 h)
  rw [abs_lt] at hdlt
  have hcc : dot (cross v1 v2) (cross v1 v2) = 1 - d * d := by
    rw [lagrange_cross, h1, h2]; ring
  have hccpos : 0 < dot (cross v1 v2) (cross v1 v2) := by
    rw [hcc]; nlinarith
  have hs : vnorm (cross v1 v2) ≠ 0 := by
    rw [Ne, vnorm_eq_zero_iff]; linarith
  have hclamp : max (-1) (min 1 d) = d := by
    rw [min_eq_right (le_of_lt hdlt.2), max_eq_right (le_of_lt hdlt.1)]
  have hsin : Real.sin (Real.arccos d) = vnorm (cross v1 v2) := by
    rw [Real.sin_arccos]
    have : 1 - d ^ 2 = dot (cross v1 v2) (cross v1 v2) := by rw [hcc]; ring
    rw [this, vnorm]
  have hcos : Real.cos (Real.arccos d) = d :=
    Real.cos_arccos (le_of_lt hdlt.1) (le_of_lt hdlt.2)
  have hck : cross (unitVec (cross v1 v2)) v1 =
      vsmul (1 / vnorm (cross v1 v2)) (vsub v2 (vsmul d v1)) := by
    rw [unitVec_as_vsmul, cross_vsmul_left, cross_cross_left, h1, ← hd]
    simp only [vsmul, vsub]; ext <;> ring
  have hkzero : dot (unitVec (cross v1 v2)) v1 = 0 := by
    rw [dot_unitVec_left, dot_cross_left, zero_div]
  have hkone : dot (unitVec (cross v1 v2)) (unitVec (cross v1 v2)) = 1 :=
    dot_unitVec_self _ hs
  have hckk : cross (unitVec (cross v1 v2)) (cross (unitVec (cross v1 v2)) v1) =
      vneg v1 := by
    rw [cross_cross_self, hkzero, hkone]
    simp only [vsmul, vsub, vneg]; ext <;> ring
  simp only [rodriguesR3, ← hd, hclamp]
  rw [mulVec3_add, mulVec3_add, mulVec3_one, mulVec3_smul, mulVec3_smul,
    skewK_mulVec, skewK_sq_mulVec, hsin, hcos, hckk, hck]
  simp only [vadd, vsmul, vsub, vneg]
  ext <;> field_simp <;> ring

/-! ## Block structure of the produced 4x4 matrices -/

theorem embed3_one : embed3 (1 : Matrix (Fin 3) (Fin 3) ℝ) = 1 := by
  ext i j
  fin_cases i <;> fin_cases j <;>
    simp [embed3, Matrix.one_apply, Matrix.vecHead, Matrix.vecTail]

theorem upper3_embed3 (R : Matrix (Fin 3) (Fin 3) ℝ) : upper3 (embed3 R) = R := by
  ext i j
  fin_cases i <;> fin_cases j <;> simp [embed3, upper3]

theorem scale4_eq_embed3 (s : ℝ) : scale4 s = embed3 (s • (1 : Matrix (Fin 3) (Fin 3) ℝ)) := by
  ext i j
  fin_cases i <;> fin_cases j <;>
    simp [scale4, embed3, Matrix.smul_apply, Matrix.one_apply, Matrix.vecHead,
      Matrix.vecTail]

theorem embed3_mul_scale4 (R : Matrix (Fin 3) (Fin 3) ℝ) (s : ℝ) :
    embed3 R * scale4 s = embed3 (s • R) := by
  ext i j
  fin_cases i <;> fin_cases j <;>
    simp [embed3, scale4, Matrix.mul_apply, Fin.sum_univ_four, Matrix.smul_apply,
      Matrix.vecHead, Matrix.vecTail, mul_comm]

/-- Applying an embedded 3x3 block (affine part zero, last row (0,0,0,1)) to a
point never fails and acts as the 3x3 matrix. -/
theorem applyTransformationPoint_embed3 (R : Matrix (Fin 3) (Fin 3) ℝ) (p : Vector3D) :
    applyTransformationPoint (embed3 R) p = some (mulVec3 R p) := by
  have hw : (embed3 R).mulVec ![p.x, p.y, p.z, 1] 3 = 1 := by
    simp [embed3, Matrix.mulVec, Matrix.dotProduct, Fin.sum_univ_four]
  rw [applyTransformationPoint, if_neg (by rw [hw]; norm_num)]
  congr 1
  have h0 : (embed3 R).mulVec ![p.x, p.y, p.z, 1] 0 =
      R 0 0 * p.x + R 0 1 * p.y + R 0 2 * p.z := by
    simp [embed3, Matrix.mulVec, Matrix.dotProduct, Fin.sum_univ_four]
  have h1 : (embed3 R).mulVec ![p.x, p.y, p.z, 1] 1 =
      R 1 0 * p.x + R 1 1 * p.y + R 1 2 * p.z := by
    simp [embed3, Matrix.mulVec, Matrix.dotProduct, Fin.sum_univ_four]
  have h2 : (embed3 R).mulVec ![p.x, p.y, p.z, 1] 2 =
      R 2 0 * p.x + R 2 1 * p.y + R 2 2 * p.z := by
    simp [embed3, Matrix.mulVec, Matrix.dotProduct, Fin.sum_univ_four]
  rw [hw, h0, h1, h2]
  simp [mulVec3]

/-! ## The three branches of calculate_rotation_matrix, unified -/

theorem crm_parallel (f t : Vector3D) (hf : vnorm f ≠ 0) (ht : vnorm t ≠ 0)
    (h : allcloseOne (dot (unitVec f) (unitVec t))) :
    calculate_rotation_matrix f t = some 1 := by
  rw [calculate_rotation_matrix, if_neg (by push_neg; exact ⟨hf, ht⟩), if_pos h]

theorem crm_antiparallel (f t : Vector3D) (hf : vnorm f ≠ 0) (ht : vnorm t ≠ 0)
    (hno : ¬ allcloseOne (dot (unitVec f) (unitVec t)))
    (h : allcloseNegOne (dot (unitVec f) (unitVec t))) :
    calculate_rotation_matrix f t = some (embed3 (antiparallelR3 (unitVec f))) := by
  rw [calculate_rotation_matrix, if_neg (by push_neg; exact ⟨hf, ht⟩), if_neg hno,
    if_pos h]

theorem crm_general (f t : Vector3D) (hf : vnorm f ≠ 0) (ht : vnorm t ≠ 0)
    (hno : ¬ allcloseOne (dot (unitVec f) (unitVec t)))
    (hnn : ¬ allcloseNegOne (dot (unitVec f) (unitVec t))) :
    calculate_rotation_matrix f t =
      some (embed3 (rodriguesR3 (unitVec f) (unitVec t))) := by
  rw [calculate_rotation_matrix, if_neg (by push_neg; exact ⟨hf, ht⟩), if_neg hno,
    if_neg hnn]

theorem vsmul_unitVec (c : ℝ) (t : Vector3D) :
    vsmul c (unitVec t) = vsmul (c / vnorm t) t := by
  simp only [vsmul, unitVec]; ext <;> ring

/-- Master lemma: in each branch in which the dot product of the normalised
vectors is exact (exactly 1, exactly -1, or outside both allclose bands), the
rotation result is a pure 3x3 block that maps the from-vector onto the
(‖from‖/‖to‖)-multiple of the to-vector. -/
theorem rotation_aligns (f t : Vector3D) (hf : vnorm f ≠ 0) (ht : vnorm t ≠ 0)
    (hb : dot (unitVec f) (unitVec t) = 1 ∨ dot (unitVec f) (unitVec t) = -1 ∨
      (¬ allcloseOne (dot (unitVec f) (unitVec t)) ∧
       ¬ allcloseNegOne (dot (unitVec f) (unitVec t)))) :
    ∃ R3, calculate_rotation_matrix f t = some (embed3 R3) ∧
      mulVec3 R3 f = vsmul (vnorm f / vnorm t) t := by
  have hu1 : dot (unitVec f) (unitVec f) = 1 := dot_unitVec_self f hf
  have hu2 : dot (unitVec t) (unitVec t) = 1 := dot_unitVec_self t ht
  rcases hb with hd | hd | ⟨hno, hnn⟩
  · refine ⟨1, ?_, ?_⟩
    · rw [crm_parallel f t hf ht (by rw [hd]; simp [allcloseOne]; norm_num), embed3_one]
    · rw [mulVec3_one]
      have heq := eq_of_dot_eq_one _ _ hu1 hu2 hd
      calc f = vsmul (vnorm f) (unitVec f) := smul_unitVec f hf
        _ = vsmul (vnorm f) (unitVec t) := by rw [heq]
        _ = vsmul (vnorm f / vnorm t) t := vsmul_unitVec _ _
  · have hno : ¬ allcloseOne (dot (unitVec f) (unitVec t)) := by
      rw [hd]; simp [allcloseOne]; norm_num
    refine ⟨antiparallelR3 (unitVec f), ?_, ?_⟩
    · rw [crm_antiparallel f t hf ht hno (by rw [hd]; simp [allcloseNegOne]; norm_num)]
    · have hneg := eq_neg_of_dot_eq_neg_one _ _ hu1 hu2 hd
      calc mulVec3 (antiparallelR3 (unitVec f)) f
          = mulVec3 (antiparallelR3 (unitVec f)) (vsmul (vnorm f) (unitVec f)) := by
            rw [← smul_unitVec f hf]
        _ = vsmul (vnorm f) (mulVec3 (antiparallelR3 (unitVec f)) (unitVec f)) :=
            mulVec3_vsmul _ _ _
        _ = vsmul (vnorm f) (vneg (unitVec f)) := by rw [antiparallelR3_maps _ hu1]
        _ = vsmul (vnorm f) (unitVec t) := by
            rw [hneg]; simp only [vneg, vsmul]; ext <;> ring
        _ = vsmul (vnorm f / vnorm t) t := vsmul_unitVec _ _
  · refine ⟨rodriguesR3 (unitVec f) (unitVec t), crm_general f t hf ht hno hnn, ?_⟩
    calc mulVec3 (rodriguesR3 (unitVec f) (unitVec t)) f
        = mulVec3 (rodriguesR3 (unitVec f) (unitVec t)) (vsmul (vnorm f) (unitVec f)) := by
          rw [← smul_unitVec f hf]
      _ = vsmul (vnorm f) (mulVec3 (rodriguesR3 (unitVec f) (unitVec t)) (unitVec f)) :=
          mulVec3_vsmul _ _ _
      _ = vsmul (vnorm f) (unitVec t) := by
          rw [rodriguesR3_maps _ _ hu1 hu2 hno hnn]
      _ = vsmul (vnorm f / vnorm t) t := vsmul_unitVec _ _

/-! ## Further helper lemmas (negation, scaling, axes, clamping, errors) -/

theorem vnorm_vneg (a : Vector3D) : vnorm (vneg a) = vnorm a := by
  have h : dot (vneg a) (vneg a) = dot a a := by simp only [dot, vneg]; ring
  rw [vnorm, h, vnorm]

theorem unitVec_vneg (a : Vector3D) : unitVec (vneg a) = vneg (unitVec a) := by
  unfold unitVec
  rw [vnorm_vneg]
  simp only [vneg]
  ext <;> ring

theorem vnorm_vsmul (c : ℝ) (a : Vector3D) : vnorm (vsmul c a) = |c| * vnorm a := by
  have h : dot (vsmul c a) (vsmul c a) = c * c * dot a a := by
    simp only [dot, vsmul]; ring
  rw [vnorm, h, Real.sqrt_mul (mul_self_nonneg c), Real.sqrt_mul_self_eq_abs, vnorm]

theorem axisVec_dot_self (ax : Axis) : dot (axisVec ax) (axisVec ax) = 1 := by
  cases ax <;> norm_num [axisVec, dot]

theorem axisVec_vnorm (ax : Axis) : vnorm (axisVec ax) = 1 :=
  vnorm_eq_one _ (axisVec_dot_self ax)

theorem clamp_of_abs_le (d : ℝ) (h : |d| ≤ 1) : max (-1) (min 1 d) = d := by
  rw [abs_le] at h
  rw [min_eq_right h.2, max_eq_right h.1]

theorem clamp_neg (d : ℝ) : max (-1) (min 1 (-d)) = -(max (-1) (min 1 d)) := by
  rcases le_total d (-1) with h | h
  · rw [min_eq_right (by linarith : d ≤ 1), max_eq_left h,
      min_eq_left (by linarith : (1:ℝ) ≤ -d), max_eq_right (by norm_num : (-1:ℝ) ≤ 1)]
    norm_num
  · rcases le_total 1 d with h2 | h2
    · rw [min_eq_left h2, max_eq_right (by norm_num : (-1:ℝ) ≤ 1),
        min_eq_right (by linarith : -d ≤ 1), max_eq_left (by linarith : -d ≤ -1)]
    · rw [min_eq_right h2, max_eq_right h, min_eq_right (by linarith : -d ≤ 1),
        max_eq_right (by linarith : (-1:ℝ) ≤ -d)]

/-- Unfolding of _calculate_alignment_error on a non-zero vector. -/
theorem calculate_alignment_error_eq (v : Vector3D) (ax : Axis) (h : vnorm v ≠ 0) :
    calculate_alignment_error v ax =
      some (degrees (Real.arccos |max (-1) (min 1 (dot (unitVec v) (axisVec ax)))|)) := by
  simp only [calculate_alignment_error, normalize_vector, if_neg h, Option.map_some']

/-- Inversion: a successful _calculate_alignment_error call forces a non-zero
vector and determines the returned value. -/
theorem cae_some_inv (v : Vector3D) (ax : Axis) (e : ℝ)
    (h : calculate_alignment_error v ax = some e) :
    vnorm v ≠ 0 ∧
      e = degrees (Real.arccos |max (-1) (min 1 (dot (unitVec v) (axisVec ax)))|) := by
  by_cases hv : vnorm v = 0
  · rw [calculate_alignment_error, normalize_vector, if_pos hv] at h
    simp at h
  · rw [calculate_alignment_error_eq v ax hv] at h
    exact ⟨hv, (Option.some.injEq _ _ ▸ h).symm⟩

theorem error_nonneg (v : Vector3D) (ax : Axis) (e : ℝ)
    (h : calculate_alignment_error v ax = some e) : 0 ≤ e := by
  rcases cae_some_inv v ax e h with ⟨-, he⟩
  rw [he, degrees]
  have h1 := Real.arccos_nonneg (|max (-1) (min 1 (dot (unitVec v) (axisVec ax)))|)
  have h2 : (0:ℝ) ≤ 180 / Real.pi := by positivity
  exact mul_nonneg h1 h2

theorem error_le_90 (v : Vector3D) (ax : Axis) (e : ℝ)
    (h : calculate_alignment_error v ax = some e) : e ≤ 90 := by
  rcases cae_some_inv v ax e h with ⟨-, he⟩
  have habs : (0:ℝ) ≤ |max (-1) (min 1 (dot (unitVec v) (axisVec ax)))| := abs_nonneg _
  have harc : Real.arccos |max (-1) (min 1 (dot (unitVec v) (axisVec ax)))| ≤ Real.pi / 2 := by
    rw [Real.arccos]
    have := Real.arcsin_nonneg.mpr habs
    linarith
  rw [he, degrees]
  have hpos : (0:ℝ) < 180 / Real.pi := by positivity
  have h90 : Real.pi / 2 * (180 / Real.pi) = 90 := by
    field_simp
    ring
  calc Real.arccos |max (-1) (min 1 (dot (unitVec v) (axisVec ax)))| * (180 / Real.pi)
      ≤ Real.pi / 2 * (180 / Real.pi) := by
        exact mul_le_mul_of_nonneg_right harc (le_of_lt hpos)
    _ = 90 := h90

/-- A non-zero multiple of the target axis has alignment error exactly 0. -/
theorem error_of_smul_axis (c : ℝ) (ax : Axis) (hc : c ≠ 0) :
    calculate_alignment_error (vsmul c (axisVec ax)) ax = some 0 := by
  have hn : vnorm (vsmul c (axisVec ax)) = |c| := by
    rw [vnorm_vsmul, axisVec_vnorm, mul_one]
  have hne : vnorm (vsmul c (axisVec ax)) ≠ 0 := by
    rw [hn]; exact abs_ne_zero.mpr hc
  rw [calculate_alignment_error_eq _ _ hne]
  have hd : dot (unitVec (vsmul c (axisVec ax))) (axisVec ax) = c / |c| := by
    rw [dot_unitVec_left, hn, dot_vsmul_left, axisVec_dot_self, mul_one]
  rw [hd]
  rcases lt_or_gt_of_ne hc with h | h
  · have : c / |c| = -1 := by
      rw [abs_of_neg h]; field_simp
    rw [this]
    rw [min_eq_right (by norm_num : (-1:ℝ) ≤ 1), max_eq_right (le_refl (-1:ℝ))]
    norm_num [Real.arccos_one, degrees]
  · have : c / |c| = 1 := by
      rw [abs_of_pos h]; field_simp
    rw [this]
    rw [min_eq_left (le_refl (1:ℝ)), max_eq_right (by norm_num : (-1:ℝ) ≤ 1)]
    norm_num [Real.arccos_one, degrees]

/-- verify_alignment applied to a pure 3x3 block matrix, fully reduced to the
two alignment-error calls on the transformed difference vectors. -/
theorem verify_alignment_embed3 (L : LandmarkSet) (A : Matrix (Fin 3) (Fin 3) ℝ)
    (p : GeometryParameters) :
    verify_alignment L (embed3 A) p =
      (calculate_alignment_error (mulVec3 A (vsub L.tail L.nose))
          p.nose_tail_axis).bind (fun e1 =>
        (calculate_alignment_error (mulVec3 A (vsub L.right_ear L.left_ear))
            p.ear_alignment_axis).map (fun e2 =>
          ⟨embed3 A, e1, e2, max e1 e2,
            if max e1 e2 ≤ p.alignment_tolerance then true else false⟩)) := by
  rw [verify_alignment]
  cases hfc : L.face_center with
  | none =>
      simp [applyTransformationPoint_embed3, ← mulVec3_vsub, Option.map_eq_bind]
  | some f =>
      simp [applyTransformationPoint_embed3, ← mulVec3_vsub, Option.map_eq_bind]

/-! ## Claim C3 -/

/-- C3: for every non-zero vector v, calculate_rotation_matrix(v, v) is
exactly the identity matrix, and the matrix returned by
calculate_rotation_matrix(v, -v) maps v exactly to -v (the anti-parallel case
builds a 180-degree rotation about a perpendicular axis).  Exact equality is
stronger than the within-tolerance phrasing of the claim. -/
theorem C3_rotation_between (v : Vector3D) (h : vnorm v ≠ 0) :
    calculate_rotation_matrix v v = some 1 ∧
    ∃ M, calculate_rotation_matrix v (vneg v) = some M ∧
      applyTransformationPoint M v = some (vneg v) := by
  have hu : dot (unitVec v) (unitVec v) = 1 := dot_unitVec_self v h
  have hnn : vnorm (vneg v) ≠ 0 := by rw [vnorm_vneg]; exact h
  have hd : dot (unitVec v) (unitVec (vneg v)) = -1 := by
    rw [unitVec_vneg]
    have hh : dot (unitVec v) (vneg (unitVec v)) = -(dot (unitVec v) (unitVec v)) := by
      simp only [dot, vneg]; ring
    rw [hh, hu]
  constructor
  · exact crm_parallel v v h h (by unfold allcloseOne; rw [hu]; norm_num)
  · refine ⟨embed3 (antiparallelR3 (unitVec v)), ?_, ?_⟩
    · exact crm_antiparallel v (vneg v) h hnn
        (by unfold allcloseOne; rw [hd]; norm_num)
        (by unfold allcloseNegOne; rw [hd]; norm_num)
    · rw [applyTransformationPoint_embed3]
      congr 1
      calc mulVec3 (antiparallelR3 (unitVec v)) v
          = mulVec3 (antiparallelR3 (unitVec v)) (vsmul (vnorm v) (unitVec v)) := by
            rw [← smul_unitVec v h]
        _ = vsmul (vnorm v) (mulVec3 (antiparallelR3 (unitVec v)) (unitVec v)) :=
            mulVec3_vsmul _ _ _
        _ = vsmul (vnorm v) (vneg (unitVec v)) := by rw [antiparallelR3_maps _ hu]
        _ = vneg (vsmul (vnorm v) (unitVec v)) := by
            simp only [vsmul, vneg]; ext <;> ring
        _ = vneg v := by rw [← smul_unitVec v h]

/-- Concrete witness for C3 at v = (1, 0, 0). -/
theorem C3_witness :
    vnorm (⟨1, 0, 0⟩ : Vector3D) ≠ 0 ∧
    (calculate_rotation_matrix ⟨1, 0, 0⟩ ⟨1, 0, 0⟩ = some 1 ∧
     ∃ M, calculate_rotation_matrix ⟨1, 0, 0⟩ (vneg ⟨1, 0, 0⟩) = some M ∧
       applyTransformationPoint M ⟨1, 0, 0⟩ = some (vneg ⟨1, 0, 0⟩)) := by
  have hdot : dot (⟨1, 0, 0⟩ : Vector3D) ⟨1, 0, 0⟩ = 1 := by norm_num [dot]
  have h : vnorm (⟨1, 0, 0⟩ : Vector3D) ≠ 0 := by
    rw [vnorm, hdot, Real.sqrt_one]; norm_num
  exact ⟨h, C3_rotation_between ⟨1, 0, 0⟩ h⟩

/-! ## Claim C10 -/

/-- C10: for every non-zero vector and every target axis, the per-axis
alignment error exists and lies in [0, 90] degrees, and the error of -v
equals the error of v. -/
theorem C10_error_range (v : Vector3D) (ax : Axis) (h : vnorm v ≠ 0) :
    ∃ e, calculate_alignment_error v ax = some e ∧ 0 ≤ e ∧ e ≤ 90 ∧
      calculate_alignment_error (vneg v) ax = some e := by
  refine ⟨_, calculate_alignment_error_eq v ax h,
    error_nonneg v ax _ (calculate_alignment_error_eq v ax h),
    error_le_90 v ax _ (calculate_alignment_error_eq v ax h), ?_⟩
  have hnn : vnorm (vneg v) ≠ 0 := by rw [vnorm_vneg]; exact h
  rw [calculate_alignment_error_eq _ ax hnn]
  have hdot : dot (unitVec (vneg v)) (axisVec ax) = -(dot (unitVec v) (axisVec ax)) := by
    rw [unitVec_vneg]; simp only [dot, vneg]; ring
  rw [hdot, clamp_neg, abs_neg]

/-- Concrete witness for C10 at v = (1, 0, 0) and the x axis. -/
theorem C10_witness :
    vnorm (⟨1, 0, 0⟩ : Vector3D) ≠ 0 ∧
    ∃ e, calculate_alignment_error ⟨1, 0, 0⟩ Axis.x = some e ∧ 0 ≤ e ∧ e ≤ 90 ∧
      calculate_alignment_error (vneg ⟨1, 0, 0⟩) Axis.x = some e := by
  have hdot : dot (⟨1, 0, 0⟩ : Vector3D) ⟨1, 0, 0⟩ = 1 := by norm_num [dot]
  have h : vnorm (⟨1, 0, 0⟩ : Vector3D) ≠ 0 := by
    rw [vnorm, hdot, Real.sqrt_one]; norm_num
  exact ⟨h, C10_error_range ⟨1, 0, 0⟩ Axis.x h⟩

/-! ## Claim C6 -/

/-- C6: whenever verify_alignment succeeds, its per-axis errors equal the
spec formula degrees(acos(|normalize(v)·target_axis|)) evaluated on the
transformed nose-tail and ear difference vectors (the clamp in the code is a
no-op), overall_error is the maximum of the two, and is_valid holds exactly
when overall_error ≤ alignment_tolerance. -/
theorem C6_verify_alignment_formula (L : LandmarkSet) (M : Matrix (Fin 4) (Fin 4) ℝ)
    (p : GeometryParameters) (r : AlignmentResult) (tn tt tl tr : Vector3D)
    (hn : applyTransformationPoint M L.nose = some tn)
    (ht : applyTransformationPoint M L.tail = some tt)
    (hl : applyTransformationPoint M L.left_ear = some tl)
    (hr2 : applyTransformationPoint M L.right_ear = some tr)
    (hv : verify_alignment L M p = some r) :
    r.nose_tail_alignment = specAlignmentErrorDeg (vsub tt tn) p.nose_tail_axis ∧
    r.ear_alignment = specAlignmentErrorDeg (vsub tr tl) p.ear_alignment_axis ∧
    r.overall_error = max r.nose_tail_alignment r.ear_alignment ∧
    (r.is_valid = true ↔ r.overall_error ≤ p.alignment_tolerance) := by
  rw [verify_alignment] at hv
  rcases hfc : L.face_center with - | f
  all_goals rw [hfc] at hv
  case some =>
    rcases happ : applyTransformationPoint M f with - | tf
    · simp [hn, ht, hl, hr2, happ] at hv
    · rcases h1 : calculate_alignment_error (vsub tt tn) p.nose_tail_axis with - | e1
      · simp [hn, ht, hl, hr2, happ, h1] at hv
      · rcases h2 : calculate_alignment_error (vsub tr tl) p.ear_alignment_axis with - | e2
        · simp [hn, ht, hl, hr2, happ, h1, h2] at hv
        · simp [hn, ht, hl, hr2, happ, h1, h2] at hv
          subst hv
          rcases cae_some_inv _ _ _ h1 with ⟨hv1, he1⟩
          rcases cae_some_inv _ _ _ h2 with ⟨hv2, he2⟩
          have hc1 : max (-1) (min 1 (dot (unitVec (vsub tt tn))
              (axisVec p.nose_tail_axis))) = dot (unitVec (vsub tt tn))
              (axisVec p.nose_tail_axis) :=
            clamp_of_abs_le _ (abs_dot_le_one _ _ (dot_unitVec_self _ hv1)
              (axisVec_dot_self _))
          have hc2 : max (-1) (min 1 (dot (unitVec (vsub tr tl))
              (axisVec p.ear_alignment_axis))) = dot (unitVec (vsub tr tl))
              (axisVec p.ear_alignment_axis) :=
            clamp_of_abs_le _ (abs_dot_le_one _ _ (dot_unitVec_self _ hv2)
              (axisVec_dot_self _))
          refine ⟨by rw [he1, hc1]; rfl, by rw [he2, hc2]; rfl, rfl, ?_⟩
          simp [sup_le_iff]
  case none =>
    rcases h1 : calculate_alignment_error (vsub tt tn) p.nose_tail_axis with - | e1
    · simp [hn, ht, hl, hr2, h1] at hv
    · rcases h2 : calculate_alignment_error (vsub tr tl) p.ear_alignment_axis with - | e2
      · simp [hn, ht, hl, hr2, h1, h2] at hv
      · simp [hn, ht, hl, hr2, h1, h2] at hv
        subst hv
        rcases cae_some_inv _ _ _ h1 with ⟨hv1, he1⟩
        rcases cae_some_inv _ _ _ h2 with ⟨hv2, he2⟩
        have hc1 : max (-1) (min 1 (dot (unitVec (vsub tt tn))
            (axisVec p.nose_tail_axis))) = dot (unitVec (vsub tt tn))
            (axisVec p.nose_tail_axis) :=
          clamp_of_abs_le _ (abs_dot_le_one _ _ (dot_unitVec_self _ hv1)
            (axisVec_dot_self _))
        have hc2 : max (-1) (min 1 (dot (unitVec (vsub tr tl))
            (axisVec p.ear_alignment_axis))) = dot (unitVec (vsub tr tl))
            (axisVec p.ear_alignment_axis) :=
          clamp_of_abs_le _ (abs_dot_le_one _ _ (dot_unitVec_self _ hv2)
            (axisVec_dot_self _))
        refine ⟨by rw [he1, hc1]; rfl, by rw [he2, hc2]; rfl, rfl, ?_⟩
        simp [sup_le_iff]

/-- Concrete witness for C6: identity block, landmarks whose nose-tail and ear
vectors both already lie along the x target axis. -/
theorem C6_witness :
    verify_alignment landmarksC6 (embed3 1) paramsC6 = some resultC6 ∧
    (resultC6.nose_tail_alignment =
        specAlignmentErrorDeg (vsub ⟨1, 0, 0⟩ ⟨0, 0, 0⟩) Axis.x ∧
     resultC6.ear_alignment =
        specAlignmentErrorDeg (vsub ⟨1, 0, 0⟩ ⟨0, 0, 0⟩) Axis.x ∧
     resultC6.overall_error = max resultC6.nose_tail_alignment resultC6.ear_alignment ∧
     (resultC6.is_valid = true ↔
        resultC6.overall_error ≤ paramsC6.alignment_tolerance)) := by
  have hsm : vsmul 1 (axisVec Axis.x) = (⟨1, 0, 0⟩ : Vector3D) := by
    norm_num [vsmul, axisVec]
  have hcae : calculate_alignment_error ⟨1, 0, 0⟩ Axis.x = some 0 := by
    rw [← hsm]; exact error_of_smul_axis 1 Axis.x one_ne_zero
  have hsub : vsub (⟨1, 0, 0⟩ : Vector3D) ⟨0, 0, 0⟩ = ⟨1, 0, 0⟩ := by
    norm_num [vsub]
  have hv : verify_alignment landmarksC6 (embed3 1) paramsC6 = some resultC6 := by
    rw [verify_alignment_embed3]
    simp only [landmarksC6, paramsC6]
    rw [mulVec3_one, hsub, hcae]
    simp [resultC6]
    norm_num
  refine ⟨hv, ?_⟩
  exact C6_verify_alignment_formula landmarksC6 (embed3 1) paramsC6 resultC6
    ⟨0, 0, 0⟩ ⟨1, 0, 0⟩ ⟨0, 0, 0⟩ ⟨1, 0, 0⟩
    (by rw [applyTransformationPoint_embed3, mulVec3_one]; rfl)
    (by rw [applyTransformationPoint_embed3, mulVec3_one]; rfl)
    (by rw [applyTransformationPoint_embed3, mulVec3_one]; rfl)
    (by rw [applyTransformationPoint_embed3, mulVec3_one]; rfl)
    hv

/-! ## Concrete evaluation of the x-to-z rotation -/

theorem vsmul_vsmul (a b : ℝ) (v : Vector3D) : vsmul a (vsmul b v) = vsmul (a * b) v := by
  simp only [vsmul]; ext <;> ring

theorem dot_e1 : dot (⟨1, 0, 0⟩ : Vector3D) ⟨1, 0, 0⟩ = 1 := by norm_num [dot]

theorem dot_e3 : dot (⟨0, 0, 1⟩ : Vector3D) ⟨0, 0, 1⟩ = 1 := by norm_num [dot]

theorem unitVec_e1 : unitVec (⟨1, 0, 0⟩ : Vector3D) = ⟨1, 0, 0⟩ :=
  unitVec_of_unit _ dot_e1

theorem unitVec_e3 : unitVec (⟨0, 0, 1⟩ : Vector3D) = ⟨0, 0, 1⟩ :=
  unitVec_of_unit _ dot_e3

theorem vnorm_e1_ne : vnorm (⟨1, 0, 0⟩ : Vector3D) ≠ 0 := by
  rw [Ne, vnorm_eq_zero_iff, dot_e1]; norm_num

theorem vnorm_e3_ne : vnorm (⟨0, 0, 1⟩ : Vector3D) ≠ 0 := by
  rw [Ne, vnorm_eq_zero_iff, dot_e3]; norm_num

theorem dot_e1_e3 : dot (⟨1, 0, 0⟩ : Vector3D) ⟨0, 0, 1⟩ = 0 := by norm_num [dot]

theorem not_allcloseOne_zero : ¬ allcloseOne 0 := by
  rw [allcloseOne]
  rw [show (0:ℝ) - 1 = -1 by norm_num, abs_neg, abs_one]
  norm_num

theorem not_allcloseNegOne_zero : ¬ allcloseNegOne 0 := by
  rw [allcloseNegOne]
  rw [show (0:ℝ) - (-1) = 1 by norm_num, abs_one]
  norm_num

/-- The rotation call on (1,0,0) → (0,0,1) lands in the general Rodrigues
branch. -/
theorem crm_x_to_z :
    calculate_rotation_matrix ⟨1, 0, 0⟩ ⟨0, 0, 1⟩ =
      some (embed3 (rodriguesR3 ⟨1, 0, 0⟩ ⟨0, 0, 1⟩)) := by
  have h := crm_general ⟨1, 0, 0⟩ ⟨0, 0, 1⟩ vnorm_e1_ne vnorm_e3_ne
    (by rw [unitVec_e1, unitVec_e3, dot_e1_e3]; exact not_allcloseOne_zero)
    (by rw [unitVec_e1, unitVec_e3, dot_e1_e3]; exact not_allcloseNegOne_zero)
  rw [h, unitVec_e1, unitVec_e3]

theorem rod_x_to_z_maps :
    mulVec3 (rodriguesR3 ⟨1, 0, 0⟩ ⟨0, 0, 1⟩) ⟨1, 0, 0⟩ = ⟨0, 0, 1⟩ :=
  rodriguesR3_maps _ _ dot_e1 dot_e3
    (by rw [dot_e1_e3]; exact not_allcloseOne_zero)
    (by rw [dot_e1_e3]; exact not_allcloseNegOne_zero)

theorem cross_e1_e3 : cross (⟨1, 0, 0⟩ : Vector3D) ⟨0, 0, 1⟩ = ⟨0, -1, 0⟩ := by
  norm_num [cross]

theorem unitVec_negy : unitVec (⟨0, -1, 0⟩ : Vector3D) = ⟨0, -1, 0⟩ :=
  unitVec_of_unit _ (by norm_num [dot])

/-- The x-to-z Rodrigues rotation fixes the y axis (its rotation axis). -/
theorem rod_x_to_z_fixes_y :
    mulVec3 (rodriguesR3 ⟨1, 0, 0⟩ ⟨0, 0, 1⟩) ⟨0, 1, 0⟩ = ⟨0, 1, 0⟩ := by
  simp only [rodriguesR3, cross_e1_e3, unitVec_negy]
  rw [mulVec3_add, mulVec3_add, mulVec3_one, mulVec3_smul, mulVec3_smul,
    skewK_mulVec, skewK_sq_mulVec]
  have h1 : cross (⟨0, -1, 0⟩ : Vector3D) ⟨0, 1, 0⟩ = ⟨0, 0, 0⟩ := by norm_num [cross]
  rw [h1]
  have h2 : cross (⟨0, -1, 0⟩ : Vector3D) ⟨0, 0, 0⟩ = ⟨0, 0, 0⟩ := by norm_num [cross]
  rw [h2]
  ext <;> simp [vadd, vsmul]

/-- The x-to-z Rodrigues rotation carries the z axis to the negative x axis. -/
theorem rod_x_to_z_on_z :
    mulVec3 (rodriguesR3 ⟨1, 0, 0⟩ ⟨0, 0, 1⟩) ⟨0, 0, 1⟩ = ⟨-1, 0, 0⟩ := by
  simp only [rodriguesR3, cross_e1_e3, unitVec_negy, dot_e1_e3]
  have hclamp : max (-1) (min 1 (0:ℝ)) = 0 := by
    rw [min_eq_right (by norm_num : (0:ℝ) ≤ 1), max_eq_right (by norm_num : (-1:ℝ) ≤ 0)]
  rw [hclamp, Real.arccos_zero, Real.sin_pi_div_two, Real.cos_pi_div_two]
  rw [mulVec3_add, mulVec3_add, mulVec3_one, mulVec3_smul, mulVec3_smul,
    skewK_mulVec, skewK_sq_mulVec]
  have h1 : cross (⟨0, -1, 0⟩ : Vector3D) ⟨0, 0, 1⟩ = ⟨-1, 0, 0⟩ := by norm_num [cross]
  rw [h1]
  have h2 : cross (⟨0, -1, 0⟩ : Vector3D) ⟨-1, 0, 0⟩ = ⟨0, 0, -1⟩ := by norm_num [cross]
  rw [h2]
  ext <;> norm_num [vadd, vsmul]

/-- The alignment error of the zero vector is a ValueError (none). -/
theorem cae_zero_vector (ax : Axis) :
    calculate_alignment_error ⟨0, 0, 0⟩ ax = none := by
  have h : vnorm (⟨0, 0, 0⟩ : Vector3D) = 0 := by
    rw [vnorm_eq_zero_iff]; norm_num [dot]
  rw [calculate_alignment_error, normalize_vector, if_pos h, Option.map_none']

/-- A non-zero vector perpendicular to the target axis has alignment error
exactly 90 degrees. -/
theorem error_of_perp (v : Vector3D) (ax : Axis) (h : vnorm v ≠ 0)
    (hd : dot v (axisVec ax) = 0) :
    calculate_alignment_error v ax = some 90 := by
  rw [calculate_alignment_error_eq _ _ h]
  have hu : dot (unitVec v) (axisVec ax) = 0 := by
    rw [dot_unitVec_left, hd, zero_div]
  rw [hu]
  have hclamp : max (-1) (min 1 (0:ℝ)) = 0 := by
    rw [min_eq_right (by norm_num : (0:ℝ) ≤ 1), max_eq_right (by norm_num : (-1:ℝ) ≤ 0)]
  rw [hclamp, abs_zero, Real.arccos_zero]
  have : degrees (Real.pi / 2) = 90 := by
    rw [degrees]
    field_simp
    ring
  rw [this]

/-- calculate_alignment_matrix on landmarks with nose→tail vector (1,0,0)
under cexParams. -/
theorem cam_x_to_z (L : LandmarkSet) (hL : vsub L.tail L.nose = ⟨1, 0, 0⟩) :
    calculate_alignment_matrix L cexParams = some matC1 := by
  rw [calculate_alignment_matrix, hL,
    show axisVec cexParams.nose_tail_axis = ⟨0, 0, 1⟩ from rfl, crm_x_to_z,
    Option.map_some']
  rw [show cexParams.scale_factor = (8:ℝ) from rfl, embed3_mul_scale4]
  rfl

/-! ## Claim C1 -/

/-- C1 counterexample: landmarks with a well-defined nose→tail vector and the
default (not pathologically small) tolerance 0.5 for which
verify_alignment(landmarks, compute_alignment(landmarks, p), p).is_valid is
false: the composed transform aligns the nose-tail axis perfectly, but the
ear vector ends up perpendicular to the ear axis, giving overall_error 90. -/
theorem C1_counterexample :
    vnorm (vsub cexLandmarks.tail cexLandmarks.nose) ≠ 0 ∧
    cexParams.Valid ∧
    ((calculate_alignment_matrix cexLandmarks cexParams).bind
        (fun M => verify_alignment cexLandmarks M cexParams)).map
      AlignmentResult.is_valid = some false := by
  have hsub : vsub cexLandmarks.tail cexLandmarks.nose = ⟨1, 0, 0⟩ := by
    norm_num [cexLandmarks, vsub]
  refine ⟨by rw [hsub]; exact vnorm_e1_ne,
    ⟨by norm_num [cexParams], by norm_num [cexParams], by norm_num [cexParams]⟩, ?_⟩
  rw [cam_x_to_z cexLandmarks hsub, Option.some_bind, matC1, verify_alignment_embed3]
  have hear : vsub cexLandmarks.right_ear cexLandmarks.left_ear = ⟨0, 1, 0⟩ := by
    norm_num [cexLandmarks, vsub]
  have hnt : mulVec3 ((8 : ℝ) • rodriguesR3 ⟨1, 0, 0⟩ ⟨0, 0, 1⟩)
      (vsub cexLandmarks.tail cexLandmarks.nose) = vsmul 8 (axisVec Axis.z) := by
    rw [hsub, mulVec3_smul, rod_x_to_z_maps]
    norm_num [vsmul, axisVec]
  have hev : mulVec3 ((8 : ℝ) • rodriguesR3 ⟨1, 0, 0⟩ ⟨0, 0, 1⟩)
      (vsub cexLandmarks.right_ear cexLandmarks.left_ear) = ⟨0, 8, 0⟩ := by
    rw [hear, mulVec3_smul, rod_x_to_z_fixes_y]
    norm_num [vsmul]
  rw [hnt, hev]
  have h1 : calculate_alignment_error (vsmul 8 (axisVec Axis.z))
      cexParams.nose_tail_axis = some 0 :=
    error_of_smul_axis 8 Axis.z (by norm_num)
  have h2 : calculate_alignment_error ⟨0, 8, 0⟩ cexParams.ear_alignment_axis = some 90 := by
    refine error_of_perp ⟨0, 8, 0⟩ Axis.x ?_ (by norm_num [dot, axisVec])
    rw [Ne, vnorm_eq_zero_iff]; norm_num [dot]
  rw [h1, h2, Option.some_bind, Option.map_some', Option.map_some']
  have hmax : max (0:ℝ) 90 = 90 := max_eq_right (by norm_num)
  rw [hmax, if_neg (by norm_num [cexParams] : ¬ (90:ℝ) ≤ cexParams.alignment_tolerance)]

/-- C1 (amended): the compute-then-verify round trip is self-consistent in
the nose-tail component only.  Whenever the dot product of the normalised
nose-tail direction with the target axis is exact (exactly 1, exactly -1, or
outside both np.allclose bands) and both calls succeed, the verified
nose-tail error is exactly 0, the overall error equals the ear error, and
is_valid holds if and only if the ear error is within the tolerance.  (The
original claim that is_valid is always true fails: compute_alignment does not
control the ear vector, see the counterexample.) -/
theorem C1_round_trip_amended (L : LandmarkSet) (p : GeometryParameters)
    (M : Matrix (Fin 4) (Fin 4) ℝ) (r : AlignmentResult)
    (hb : dot (unitVec (vsub L.tail L.nose)) (unitVec (axisVec p.nose_tail_axis)) = 1 ∨
      dot (unitVec (vsub L.tail L.nose)) (unitVec (axisVec p.nose_tail_axis)) = -1 ∨
      (¬ allcloseOne (dot (unitVec (vsub L.tail L.nose))
          (unitVec (axisVec p.nose_tail_axis))) ∧
       ¬ allcloseNegOne (dot (unitVec (vsub L.tail L.nose))
          (unitVec (axisVec p.nose_tail_axis)))))
    (hM : calculate_alignment_matrix L p = some M)
    (hr : verify_alignment L M p = some r) :
    r.nose_tail_alignment = 0 ∧
    r.overall_error = r.ear_alignment ∧
    (r.is_valid = true ↔ r.ear_alignment ≤ p.alignment_tolerance) := by
  rcases hcrm : calculate_rotation_matrix (vsub L.tail L.nose)
      (axisVec p.nose_tail_axis) with - | R4
  · rw [calculate_alignment_matrix, hcrm, Option.map_none'] at hM
    exact absurd hM (by simp)
  · rw [calculate_alignment_matrix, hcrm, Option.map_some'] at hM
    have hMeq : M = R4 * scale4 p.scale_factor := (Option.some.inj hM).symm
    have hf : vnorm (vsub L.tail L.nose) ≠ 0 := by
      intro h0
      rw [calculate_rotation_matrix, if_pos (Or.inl h0)] at hcrm
      exact Option.noConfusion hcrm
    have ht : vnorm (axisVec p.nose_tail_axis) ≠ 0 := by
      rw [axisVec_vnorm]; norm_num
    obtain ⟨R3, hR3eq, hR3maps⟩ :=
      rotation_aligns (vsub L.tail L.nose) (axisVec p.nose_tail_axis) hf ht hb
    rw [hcrm] at hR3eq
    have hR4 : R4 = embed3 R3 := Option.some.inj hR3eq
    rw [hMeq, hR4, embed3_mul_scale4, verify_alignment_embed3] at hr
    have hntv : mulVec3 (p.scale_factor • R3) (vsub L.tail L.nose) =
        vsmul (p.scale_factor *
          (vnorm (vsub L.tail L.nose) / vnorm (axisVec p.nose_tail_axis)))
          (axisVec p.nose_tail_axis) := by
      rw [mulVec3_smul, hR3maps, vsmul_vsmul]
    rw [hntv] at hr
    by_cases hC : p.scale_factor *
        (vnorm (vsub L.tail L.nose) / vnorm (axisVec p.nose_tail_axis)) = 0
    · rw [hC] at hr
      have hz : vsmul (0:ℝ) (axisVec p.nose_tail_axis) = ⟨0, 0, 0⟩ := by
        simp [vsmul]
      rw [hz, cae_zero_vector, Option.none_bind] at hr
      exact Option.noConfusion hr
    · rw [error_of_smul_axis _ _ hC, Option.some_bind] at hr
      rcases h2 : calculate_alignment_error
          (mulVec3 (p.scale_factor • R3) (vsub L.right_ear L.left_ear))
          p.ear_alignment_axis with - | e2
      · rw [h2, Option.map_none'] at hr
        exact Option.noConfusion hr
      · rw [h2, Option.map_some'] at hr
        have hres := Option.some.inj hr
        subst hres
        have he2 : 0 ≤ e2 := error_nonneg _ _ _ h2
        have hmax : max (0:ℝ) e2 = e2 := max_eq_right he2
        refine ⟨rfl, hmax, ?_⟩
        show (if max (0:ℝ) e2 ≤ p.alignment_tolerance then true else false) = true ↔
          e2 ≤ p.alignment_tolerance
        rw [hmax]
        by_cases hcase : e2 ≤ p.alignment_tolerance
        · rw [if_pos hcase]
          exact iff_of_true rfl hcase
        · rw [if_neg hcase]
          exact iff_of_false (by simp) hcase

/-- Concrete witness for the amended C1: landmarks whose ear vector is carried
onto the ear axis, so the round trip verifies successfully with all errors 0. -/
theorem C1_witness :
    (dot (unitVec (vsub alignedLandmarks.tail alignedLandmarks.nose))
        (unitVec (axisVec cexParams.nose_tail_axis)) = 1 ∨
     dot (unitVec (vsub alignedLandmarks.tail alignedLandmarks.nose))
        (unitVec (axisVec cexParams.nose_tail_axis)) = -1 ∨
     (¬ allcloseOne (dot (unitVec (vsub alignedLandmarks.tail alignedLandmarks.nose))
          (unitVec (axisVec cexParams.nose_tail_axis))) ∧
      ¬ allcloseNegOne (dot (unitVec (vsub alignedLandmarks.tail alignedLandmarks.nose))
          (unitVec (axisVec cexParams.nose_tail_axis))))) ∧
    calculate_alignment_matrix alignedLandmarks cexParams = some matC1 ∧
    verify_alignment alignedLandmarks matC1 cexParams = some resultC1 ∧
    (resultC1.nose_tail_alignment = 0 ∧
     resultC1.overall_error = resultC1.ear_alignment ∧
     (resultC1.is_valid = true ↔
        resultC1.ear_alignment ≤ cexParams.alignment_tolerance)) := by
  have hsub : vsub alignedLandmarks.tail alignedLandmarks.nose = ⟨1, 0, 0⟩ := by
    norm_num [alignedLandmarks, vsub]
  have hd : dot (unitVec (vsub alignedLandmarks.tail alignedLandmarks.nose))
      (unitVec (axisVec cexParams.nose_tail_axis)) = 0 := by
    rw [hsub, show axisVec cexParams.nose_tail_axis = ⟨0, 0, 1⟩ from rfl,
      unitVec_e1, unitVec_e3, dot_e1_e3]
  have hb : dot (unitVec (vsub alignedLandmarks.tail alignedLandmarks.nose))
      (unitVec (axisVec cexParams.nose_tail_axis)) = 1 ∨
      dot (unitVec (vsub alignedLandmarks.tail alignedLandmarks.nose))
        (unitVec (axisVec cexParams.nose_tail_axis)) = -1 ∨
      (¬ allcloseOne (dot (unitVec (vsub alignedLandmarks.tail alignedLandmarks.nose))
          (unitVec (axisVec cexParams.nose_tail_axis))) ∧
       ¬ allcloseNegOne (dot (unitVec (vsub alignedLandmarks.tail alignedLandmarks.nose))
          (unitVec (axisVec cexParams.nose_tail_axis)))) := by
    right; right
    constructor
    · rw [hd]; exact not_allcloseOne_zero
    · rw [hd]; exact not_allcloseNegOne_zero
  have hM : calculate_alignment_matrix alignedLandmarks cexParams = some matC1 :=
    cam_x_to_z alignedLandmarks hsub
  have hear : vsub alignedLandmarks.right_ear alignedLandmarks.left_ear = ⟨0, 0, 1⟩ := by
    norm_num [alignedLandmarks, vsub]
  have hr : verify_alignment alignedLandmarks matC1 cexParams = some resultC1 := by
    rw [matC1, verify_alignment_embed3]
    have hnt : mulVec3 ((8 : ℝ) • rodriguesR3 ⟨1, 0, 0⟩ ⟨0, 0, 1⟩)
        (vsub alignedLandmarks.tail alignedLandmarks.nose) = vsmul 8 (axisVec Axis.z) := by
      rw [hsub, mulVec3_smul, rod_x_to_z_maps]
      norm_num [vsmul, axisVec]
    have hev : mulVec3 ((8 : ℝ) • rodriguesR3 ⟨1, 0, 0⟩ ⟨0, 0, 1⟩)
        (vsub alignedLandmarks.right_ear alignedLandmarks.left_ear) =
          vsmul (-8) (axisVec Axis.x) := by
      rw [hear, mulVec3_smul, rod_x_to_z_on_z]
      norm_num [vsmul, axisVec]
    rw [hnt, hev]
    have h1 : calculate_alignment_error (vsmul 8 (axisVec Axis.z))
        cexParams.nose_tail_axis = some 0 :=
      error_of_smul_axis 8 Axis.z (by norm_num)
    have h2 : calculate_alignment_error (vsmul (-8) (axisVec Axis.x))
        cexParams.ear_alignment_axis = some 0 :=
      error_of_smul_axis (-8) Axis.x (by norm_num)
    rw [h1, h2, Option.some_bind, Option.map_some']
    have hmax : max (0:ℝ) 0 = 0 := max_self 0
    rw [hmax, if_pos (by norm_num [cexParams] : (0:ℝ) ≤ cexParams.alignment_tolerance)]
    rfl
  exact ⟨hb, hM, hr,
    C1_round_trip_amended alignedLandmarks cexParams matC1 resultC1 hb hM hr⟩

/-! ## Claim C8 -/

/-- C8 counterexample: with nose_tail_axis z and scale_factor 8 on a cloud
whose nose→tail vector is (1,0,0), the upper-left 3x3 block of the combined
matrix maps (1,0,0) to (0,0,8) — the scale is folded into the block — and not
to (0,0,1) as the claim states. -/
theorem C8_counterexample :
    (calculate_alignment_matrix cexLandmarks cexParams).map
      (fun M => mulVec3 (upper3 M) ⟨1, 0, 0⟩) = some ⟨0, 0, 8⟩ ∧
    (⟨0, 0, 8⟩ : Vector3D) ≠ ⟨0, 0, 1⟩ := by
  constructor
  · have hsub : vsub cexLandmarks.tail cexLandmarks.nose = ⟨1, 0, 0⟩ := by
      norm_num [cexLandmarks, vsub]
    rw [cam_x_to_z cexLandmarks hsub, Option.map_some']
    rw [matC1, upper3_embed3, mulVec3_smul, rod_x_to_z_maps]
    norm_num [vsmul]
  · intro h
    have := congrArg Vector3D.z h
    norm_num at this

/-- C8 (amended): the combined matrix is rotation · scale with zero
translation column; consequently its upper-left 3x3 block maps (1,0,0) to
scale_factor · (0,0,1) = (0,0,8) (not to (0,0,1) itself). -/
theorem C8_alignment_matrix_amended :
    ∃ R4, calculate_rotation_matrix (vsub cexLandmarks.tail cexLandmarks.nose)
        (axisVec cexParams.nose_tail_axis) = some R4 ∧
      calculate_alignment_matrix cexLandmarks cexParams =
        some (R4 * scale4 cexParams.scale_factor) ∧
      mulVec3 (upper3 (R4 * scale4 cexParams.scale_factor)) ⟨1, 0, 0⟩ =
        vsmul cexParams.scale_factor (axisVec cexParams.nose_tail_axis) ∧
      vsmul cexParams.scale_factor (axisVec cexParams.nose_tail_axis) = ⟨0, 0, 8⟩ ∧
      (R4 * scale4 cexParams.scale_factor) 0 3 = 0 ∧
      (R4 * scale4 cexParams.scale_factor) 1 3 = 0 ∧
      (R4 * scale4 cexParams.scale_factor) 2 3 = 0 := by
  have hsub : vsub cexLandmarks.tail cexLandmarks.nose = ⟨1, 0, 0⟩ := by
    norm_num [cexLandmarks, vsub]
  refine ⟨embed3 (rodriguesR3 ⟨1, 0, 0⟩ ⟨0, 0, 1⟩), ?_, ?_, ?_, ?_, ?_, ?_, ?_⟩
  · rw [hsub, show axisVec cexParams.nose_tail_axis = ⟨0, 0, 1⟩ from rfl]
    exact crm_x_to_z
  · rw [cam_x_to_z cexLandmarks hsub, matC1,
      show cexParams.scale_factor = (8:ℝ) from rfl, embed3_mul_scale4]
  · rw [show cexParams.scale_factor = (8:ℝ) from rfl, embed3_mul_scale4,
      upper3_embed3, mulVec3_smul, rod_x_to_z_maps]
    rfl
  · norm_num [vsmul, axisVec, cexParams]
  all_goals rw [show cexParams.scale_factor = (8:ℝ) from rfl, embed3_mul_scale4]
  all_goals simp [embed3]

/-! ## Claim C9 -/

/-- C9 counterexample: construction data without ear points is rejected by
the LandmarkSet validation — ear landmarks are required fields, so a landmark
set without ear points is NOT constructible. -/
theorem C9_counterexample :
    mkLandmarkSet (some ⟨0, 0, 0⟩) (some ⟨1, 0, 0⟩) none none none =
      Except.error "left_ear: field required" := rfl

/-- C9 (amended): only face_center is optional in LandmarkSet.  Validation
succeeds exactly when all four required fields (nose, tail, left_ear,
right_ear) are present, for any face_center; consequently verify_alignment
always computes the ear error from the required ear fields and no
absent-ear convention exists. -/
theorem C9_ears_required_amended (n t lear rear fc : Option Vector3D) :
    (∃ ls, mkLandmarkSet n t lear rear fc = Except.ok ls) ↔
      (n.isSome = true ∧ t.isSome = true ∧ lear.isSome = true ∧ rear.isSome = true) := by
  cases n <;> cases t <;> cases lear <;> cases rear <;> simp [mkLandmarkSet]

/-! ## Claim C4 -/

/-- C4 counterexample: two coincident points — fewer than 4 and completely
degenerate — for which _analyze_mesh_geometry succeeds and returns a frame
(the zero covariance matrix has a perfectly valid eigh decomposition); no
DegenerateGeometry error is raised, and no such error exists in the code. -/
theorem C4_counterexample :
    pts2.length < 4 ∧
    EighSpec (covMatrix pts2) evals0 1 ∧
    analyze_mesh_geometry (some pts2) evals0 1 =
      Except.ok ⟨centroidP pts2, principalAxes 1⟩ := by
  refine ⟨by norm_num [pts2], ⟨?_, ?_, le_refl _, le_refl _⟩, rfl⟩
  · intro j k
    fin_cases j <;> fin_cases k <;> simp [dotP, Matrix.one_apply]
  · have hcov : covMatrix pts2 = 0 := by
      ext i j
      simp [covMatrix, pts2, centroidP]
    intro j
    rw [hcov, Matrix.zero_mulVec]
    simp [evals0]

/-- C4 (amended): _analyze_mesh_geometry performs no minimum-point count or
degeneracy check at all: for every vertex list it succeeds and returns the
centroid together with the PCA axes, and the only failure mode is the
ValueError raised when the stored vertices are None. -/
theorem C4_no_degeneracy_check_amended (vertices : List Pt) (evals : Fin 3 → ℝ)
    (evecs : Matrix (Fin 3) (Fin 3) ℝ) :
    analyze_mesh_geometry (some vertices) evals evecs =
      Except.ok ⟨centroidP vertices, principalAxes evecs⟩ ∧
    analyze_mesh_geometry none evals evecs =
      Except.error "No vertices available for analysis" := ⟨rfl, rfl⟩

/-! ## Claim C2 -/

/-- C2: under the documented eigh contract, _analyze_mesh_geometry returns
axes that are exactly orthonormal — so the 1e-6 tolerances of the claim hold
strictly — ordered by descending eigenvalue, and axes[0] is an eigenvector of
the covariance matrix whose eigenvalue dominates all others (the
greatest-variance body axis). -/
theorem C2_orthonormal_axes (vs : List Pt) (evals : Fin 3 → ℝ)
    (evecs : Matrix (Fin 3) (Fin 3) ℝ)
    (h : EighSpec (covMatrix vs) evals evecs) :
    analyze_mesh_geometry (some vs) evals evecs =
      Except.ok ⟨centroidP vs, principalAxes evecs⟩ ∧
    (∀ i j, i ≠ j →
      |dotP (principalAxes evecs i) (principalAxes evecs j)| < 1e-6) ∧
    (∀ i, |normP (principalAxes evecs i) - 1| < 1e-6) ∧
    (∀ i j, i ≤ j → sortedEvals evals j ≤ sortedEvals evals i) ∧
    (covMatrix vs).mulVec (principalAxes evecs 0) =
      sortedEvals evals 0 • principalAxes evecs 0 ∧
    (∀ i, evals i ≤ sortedEvals evals 0) := by
  obtain ⟨horth, heig, h01, h12⟩ := h
  refine ⟨rfl, ?_, ?_, ?_, heig (sortIdxDesc 0), ?_⟩
  · intro i j hij
    have hne : sortIdxDesc i ≠ sortIdxDesc j := by
      intro heq
      apply hij
      fin_cases i <;> fin_cases j <;> simp_all [sortIdxDesc]
    have h0 : dotP (principalAxes evecs i) (principalAxes evecs j) = 0 := by
      have := horth (sortIdxDesc i) (sortIdxDesc j)
      rw [if_neg hne] at this
      exact this
    rw [h0]
    norm_num
  · intro i
    have h1 : dotP (principalAxes evecs i) (principalAxes evecs i) = 1 := by
      have := horth (sortIdxDesc i) (sortIdxDesc i)
      rw [if_pos rfl] at this
      exact this
    have h2 : normP (principalAxes evecs i) = 1 := by
      rw [normP, h1, Real.sqrt_one]
    rw [h2]
    norm_num
  · intro i j hij
    fin_cases i <;> fin_cases j <;>
      first
      | exact le_refl _
      | exact h01
      | exact h12
      | exact le_trans h01 h12
      | exact absurd hij (by decide)
  · intro i
    fin_cases i
    · exact le_trans h01 h12
    · exact h12
    · exact le_refl _

/-- Concrete witness for C2: a 6-point cloud whose covariance matrix is
diag(2/5, 8/5, 18/5) with the identity eigenvector matrix. -/
theorem C2_witness :
    EighSpec (covMatrix pts6) evals6 1 ∧
    ((∀ i j, i ≠ j →
      |dotP (principalAxes (1 : Matrix (Fin 3) (Fin 3) ℝ) i)
        (principalAxes (1 : Matrix (Fin 3) (Fin 3) ℝ) j)| < 1e-6) ∧
     (∀ i, |normP (principalAxes (1 : Matrix (Fin 3) (Fin 3) ℝ) i) - 1| < 1e-6) ∧
     (∀ i j, i ≤ j → sortedEvals evals6 j ≤ sortedEvals evals6 i) ∧
     (covMatrix pts6).mulVec (principalAxes (1 : Matrix (Fin 3) (Fin 3) ℝ) 0) =
        sortedEvals evals6 0 • principalAxes (1 : Matrix (Fin 3) (Fin 3) ℝ) 0 ∧
     (∀ i, evals6 i ≤ sortedEvals evals6 0)) := by
  have hcov : covMatrix pts6 = Matrix.of ![![2/5, 0, 0], ![0, 8/5, 0], ![0, 0, 18/5]] := by
    ext i j
    fin_cases i <;> fin_cases j <;>
      (simp [covMatrix, pts6, centroidP, Matrix.vecHead, Matrix.vecTail]; try norm_num)
  have hspec : EighSpec (covMatrix pts6) evals6 1 := by
    refine ⟨?_, ?_, ?_, ?_⟩
    · intro j k
      fin_cases j <;> fin_cases k <;> simp [dotP, Matrix.one_apply]
    · intro j
      rw [hcov]
      funext i
      fin_cases j <;> fin_cases i <;>
        (simp [Matrix.mulVec, Matrix.dotProduct, Fin.sum_univ_three,
          Matrix.one_apply, Matrix.vecHead, Matrix.vecTail, evals6]; try norm_num)
    · simp [evals6]; norm_num
    · simp [evals6]; norm_num
  exact ⟨hspec, (C2_orthonormal_axes pts6 evals6 1 hspec).2⟩

/-! ## Claim C7 -/

/-- Slices over a cloud of at most 5 vertices never reach the minimum vertex
count, so they produce no usable record. -/
theorem sliceDensity_none_of_small (vs : List Pt) (c a : Pt) (pos thick : ℝ)
    (h : vs.length ≤ 5) : sliceDensity vs c a pos thick = none := by
  rw [sliceDensity, if_neg]
  intro hlt
  have hle : (sliceVertices vs c a pos thick).length ≤ vs.length := by
    rw [sliceVertices]
    exact List.length_filter_le _ _
  omega

theorem usableSliceRecords_small (vs : List Pt) (c a : Pt) (h : vs.length ≤ 5) :
    usableSliceRecords vs c a = [] := by
  rw [usableSliceRecords, List.filterMap_eq_nil_iff]
  intro pos _
  exact sliceDensity_none_of_small vs c a pos _ h

/-- C7 counterexample: a degenerate cloud takes the fallback path (0 usable
slices), yet the returned metadata is byte-for-byte the metadata of the
normal path — detection_method still reads "density_analysis" and there is no
low-confidence flag anywhere in the result. -/
theorem C7_counterexample :
    (usableSliceRecords pts2 (centroidP pts2)
      (principalAxes (1 : Matrix (Fin 3) (Fin 3) ℝ) 0)).length < 10 ∧
    (density_detect_landmarks pts2 evals0 1).landmarks =
      fallback_to_extremes pts2
        (projectionsP pts2 (centroidP pts2) (principalAxes 1 0)) ∧
    (density_detect_landmarks pts2 evals0 1).metadata =
      ⟨"density_analysis", "mesh_relative", some (centroidP pts2),
        some (principalAxes 1), ["nose", "tail_tip", "tail_attachment"],
        pts2.length⟩ := by
  have h : usableSliceRecords pts2 (centroidP pts2)
      (principalAxes (1 : Matrix (Fin 3) (Fin 3) ℝ) 0) = [] :=
    usableSliceRecords_small _ _ _ (by norm_num [pts2])
  refine ⟨by rw [h]; norm_num, ?_, ?_⟩
  · rw [density_detect_landmarks, detect_nose_and_tail_by_density,
      if_pos (by rw [h]; norm_num)]
    rfl
  · rw [density_detect_landmarks, detect_nose_and_tail_by_density,
      if_pos (by rw [h]; norm_num)]
    rfl

/-- C7 (amended): whenever fewer than 10 usable slices survive filtering, the
detector does fall back to classifying the global projection extremes as nose
and tail without failing — but the result is NOT flagged: the metadata is
identical to the density-path metadata, with detection_method
"density_analysis" and no low-confidence field. -/
theorem C7_fallback_amended (vs : List Pt) (evals : Fin 3 → ℝ)
    (evecs : Matrix (Fin 3) (Fin 3) ℝ)
    (h : (usableSliceRecords vs (centroidP vs) (principalAxes evecs 0)).length < 10) :
    (density_detect_landmarks vs evals evecs).landmarks =
      fallback_to_extremes vs
        (projectionsP vs (centroidP vs) (principalAxes evecs 0)) ∧
    (density_detect_landmarks vs evals evecs).metadata =
      ⟨"density_analysis", "mesh_relative", some (centroidP vs),
        some (principalAxes evecs), ["nose", "tail_tip", "tail_attachment"],
        vs.length⟩ := by
  rw [density_detect_landmarks, detect_nose_and_tail_by_density, if_pos h]
  exact ⟨rfl, rfl⟩

/-- Concrete witness for the amended C7 on the two-point degenerate cloud. -/
theorem C7_witness :
    (usableSliceRecords pts2 (centroidP pts2)
      (principalAxes (1 : Matrix (Fin 3) (Fin 3) ℝ) 0)).length < 10 ∧
    ((density_detect_landmarks pts2 evals0 1).landmarks =
      fallback_to_extremes pts2
        (projectionsP pts2 (centroidP pts2) (principalAxes 1 0)) ∧
     (density_detect_landmarks pts2 evals0 1).metadata =
      ⟨"density_analysis", "mesh_relative", some (centroidP pts2),
        some (principalAxes 1), ["nose", "tail_tip", "tail_attachment"],
        pts2.length⟩) := by
  have h : (usableSliceRecords pts2 (centroidP pts2)
      (principalAxes (1 : Matrix (Fin 3) (Fin 3) ℝ) 0)).length < 10 := by
    rw [usableSliceRecords_small _ _ _ (by norm_num [pts2])]
    norm_num
  exact ⟨h, C7_fallback_amended pts2 evals0 1 h⟩

/-! ## Claim C5 -/

/-- C5 counterexample: detect_landmarks hard-fails on a 2-column vertex
array — it raises ValueError instead of returning a landmark set. -/
theorem C5_counterexample :
    geo_detect_landmarks (fun _ => fun _ => 0) badArray =
      Except.error "Vertices must be Nx3 array" := by
  rw [geo_detect_landmarks, if_pos (by norm_num [badArray])]

/-- C5 (amended): detect_landmarks CAN hard-fail: the geometric detector
raises ValueError for every vertex array whose second dimension is not 3,
before its try block, and the except clauses of both detectors re-raise
internal exceptions instead of absorbing them.  (The density detector itself
is total in this embedding: the too-few-slices degradation is absorbed by the
fallback, but it is reported through an unchanged metadata rather than a
confidence field.) -/
theorem C5_hard_failure_amended (axes : Fin 3 → Pt) (arr : NpArray)
    (h : arr.cols ≠ 3) :
    geo_detect_landmarks axes arr = Except.error "Vertices must be Nx3 array" := by
  rw [geo_detect_landmarks, if_pos h]

/-- Concrete witness for the amended C5 at a 2-column array. -/
theorem C5_witness :
    badArray.cols ≠ 3 ∧
    geo_detect_landmarks (fun _ => fun _ => 0) badArray =
      Except.error "Vertices must be Nx3 array" :=
  ⟨by norm_num [badArray], C5_hard_failure_amended _ _ (by norm_num [badArray])⟩

end ISI
